import Mathlib

/-!
Verification development for the AWS compute/storage automation script
(`script.py`).  The Python source is shallowly embedded: the YAML
specification becomes typed structures, the pure validation logic becomes a
total function into `Except String Unit` carrying the source's error
messages, and the remote-calling orchestration (`provision_resources`,
`rollback_resources`, instance/volume/alarm creation) becomes explicit
state-passing over a call trace, with the AWS client modelled as an oracle
environment.  Python exceptions become `Except` errors that carry the
partially mutated state, mirroring how `self.created_resources` survives an
exception.
-/

/-! ## Small string helpers (Python semantics, kernel-computable) -/

/-- Python `str.strip()`: drop whitespace on both ends. -/
def pyStrip (s : String) : String :=
  ⟨(((s.data.dropWhile Char.isWhitespace).reverse.dropWhile Char.isWhitespace).reverse)⟩

/-- Python `str.startswith(pre)`. -/
def pyStartsWith (s pre : String) : Bool :=
  pre.data.isPrefixOf s.data

/-! ## Data model

Typed embedding of the YAML dictionaries consumed by `script.py`.  A field
that may be absent from the dictionary is an `Option`; the required key
accesses of the source (`d["k"]`) are embedded as a lookup that raises
`KeyError` when the field is `none`.  Fields carry the type the
specification declares for them; the one dynamically-typed failure mode the
source checks and a property names — a non-string `iam_role` — is modelled
explicitly via `StrVal`. -/

/-- A YAML value expected to be a string but possibly of another type. -/
inductive StrVal where
  | notStr
  | str (s : String)
deriving DecidableEq, Repr

/-- `user_data` block: `script_path` / `inline_script` keys. -/
structure UserDataCfg where
  script_path : Option String
  inline_script : Option String
deriving DecidableEq, Repr

/-- `idle_shutdown` block. -/
structure IdleCfg where
  cpu_threshold : Option Rat
  evaluation_minutes : Option Int
  action : Option String
deriving DecidableEq, Repr

/-- One entry of an instance's `volumes` list. -/
structure VolumeSpec where
  size : Option Int
  type : Option String
  iops : Option Int
  encrypted : Option Bool
  device : Option String
  mount_point : Option String
  filesystem : Option String
  mount_options : Option String
deriving DecidableEq, Repr

/-- One entry of the top-level `instances` list. -/
structure InstanceSpec where
  name : Option String
  instance_type : Option String
  ami_id : Option String
  key_name : Option String
  security_groups : Option (List String)
  subnet_id : Option String
  market_type : Option String
  spot_price : Option String
  tags : Option (List (String × String))
  user_data : Option UserDataCfg
  idle_shutdown : Option IdleCfg
  iam_role : Option StrVal
  volumes : Option (List VolumeSpec)
deriving DecidableEq, Repr

/-- The default instance declaration: every optional key absent. -/
def InstanceSpec.default : InstanceSpec :=
  ⟨none, none, none, none, none, none, none, none, none, none, none, none, none⟩

/-- The default volume declaration: every key absent. -/
def VolumeSpec.default : VolumeSpec :=
  ⟨none, none, none, none, none, none, none, none⟩

/-- The whole YAML document. -/
structure SpecFile where
  instances : Option (List InstanceSpec)
  profile : Option String
deriving DecidableEq, Repr

/-! ## Validation (`_validate_specification`, `_validate_volume_spec`)

A faithful embedding of the fail-fast validator: first error message wins,
messages reproduce the source's `ValueError` texts (Python list reprs
included). -/

def valid_volume_types : List String := ["gp2", "gp3", "io1", "io2", "st1", "sc1"]

def dangerous_paths : List String :=
  ["/", "/boot", "/etc", "/usr", "/bin", "/sbin", "/lib", "/lib64"]

def supported_filesystems : List String := ["ext4", "xfs", "btrfs"]

def valid_actions : List String := ["stop", "terminate"]

/-- The `in instance i, volume j` suffix of every volume error message. -/
def volSfx (i j : Nat) : String :=
  "in instance " ++ toString i ++ ", volume " ++ toString j

/-- `size` presence and positivity check of `_validate_volume_spec`. -/
def check_volume_size (v : VolumeSpec) (i j : Nat) : Except String Unit :=
  match v.size with
  | none => throw ("Volume specification missing required field 'size' " ++ volSfx i j)
  | some size =>
      if size ≤ 0 then throw ("Volume size must be a positive integer " ++ volSfx i j)
      else pure ()

/-- `type` enum check of `_validate_volume_spec`. -/
def check_volume_type (v : VolumeSpec) (i j : Nat) : Except String Unit :=
  match v.type with
  | some t =>
      if t ∉ valid_volume_types then
        throw ("Invalid volume type '" ++ t ++ "' " ++ volSfx i j ++
          ". Must be one of: ['gp2', 'gp3', 'io1', 'io2', 'st1', 'sc1']")
      else pure ()
  | none => pure ()

/-- `mount_point` checks of `_validate_volume_spec`: non-blank, absolute,
not a reserved system directory. -/
def check_mount_point (v : VolumeSpec) (i j : Nat) : Except String Unit :=
  match v.mount_point with
  | some mp =>
      if pyStrip mp = "" then
        throw ("Mount point must be a non-empty string " ++ volSfx i j)
      else if ¬ pyStartsWith mp "/" then
        throw ("Mount point must be an absolute path " ++ volSfx i j)
      else if mp ∈ dangerous_paths then
        throw ("Mount point '" ++ mp ++ "' is a reserved system directory " ++ volSfx i j)
      else pure ()
  | none => pure ()

/-- `filesystem` enum check of `_validate_volume_spec`. -/
def check_filesystem (v : VolumeSpec) (i j : Nat) : Except String Unit :=
  match v.filesystem with
  | some fs =>
      if fs ∉ supported_filesystems then
        throw ("Unsupported filesystem '" ++ fs ++ "' " ++ volSfx i j ++
          ". Supported: ['ext4', 'xfs', 'btrfs']")
      else pure ()
  | none => pure ()

/-- `mount_options` check of `_validate_volume_spec` (non-blank string). -/
def check_mount_options (v : VolumeSpec) (i j : Nat) : Except String Unit :=
  match v.mount_options with
  | some mo =>
      if pyStrip mo = "" then
        throw ("Mount options must be a non-empty string " ++ volSfx i j)
      else pure ()
  | none => pure ()

/-- `device` check of `_validate_volume_spec` (path under `/dev/`). -/
def check_device (v : VolumeSpec) (i j : Nat) : Except String Unit :=
  match v.device with
  | some d =>
      if ¬ pyStartsWith d "/dev/" then
        throw ("Device must be a valid device path (e.g., /dev/sdf) " ++ volSfx i j)
      else pure ()
  | none => pure ()

/-- Embeds `_validate_volume_spec` (source lines 189-278), in the source's
check order. -/
def validate_volume_spec (v : VolumeSpec) (i j : Nat) : Except String Unit := do
  check_volume_size v i j
  check_volume_type v i j
  check_mount_point v i j
  check_filesystem v i j
  check_mount_options v i j
  check_device v i j

/-- The first of `name`, `instance_type`, `ami_id` absent from an instance
declaration, in the source's check order. -/
def firstMissingField (inst : InstanceSpec) : Option String :=
  if inst.name.isNone then some "name"
  else if inst.instance_type.isNone then some "instance_type"
  else if inst.ami_id.isNone then some "ami_id"
  else none

def missingFieldMsg (f : String) (i : Nat) : String :=
  "Missing required field '" ++ f ++ "' in instance " ++ toString i

/-- Volume list check of one instance (the inner loop over `volumes`). -/
def validate_volumes (i : Nat) : Nat → List VolumeSpec → Except String Unit
  | _, [] => pure ()
  | j, v :: rest => do
      validate_volume_spec v i j
      validate_volumes i (j + 1) rest

/-- Required-field presence check of the per-instance loop. -/
def check_required_fields (i : Nat) (inst : InstanceSpec) : Except String Unit :=
  match firstMissingField inst with
  | some f => throw (missingFieldMsg f i)
  | none => pure ()

/-- `user_data` check: exactly one of `script_path` / `inline_script`. -/
def check_user_data (i : Nat) (inst : InstanceSpec) : Except String Unit :=
  match inst.user_data with
  | some ud =>
      if ud.script_path.isSome ∧ ud.inline_script.isSome then
        throw ("Cannot specify both script_path and inline_script in instance " ++ toString i)
      else if ud.script_path.isNone ∧ ud.inline_script.isNone then
        throw ("user_data must contain either script_path or inline_script in instance "
          ++ toString i)
      else pure ()
  | none => pure ()

/-- `idle_shutdown` checks: required keys, threshold range, positive
evaluation minutes, action enum. -/
def check_idle_shutdown (i : Nat) (inst : InstanceSpec) : Except String Unit :=
  match inst.idle_shutdown with
  | some idle =>
      match idle.cpu_threshold with
      | none =>
          throw ("Missing required field 'cpu_threshold' in idle_shutdown config for instance "
            ++ toString i)
      | some thr =>
        match idle.evaluation_minutes with
        | none =>
            throw
              ("Missing required field 'evaluation_minutes' in idle_shutdown config for instance "
                ++ toString i)
        | some em =>
          if thr < 0 ∨ thr > 100 then
            throw ("cpu_threshold must be a number between 0 and 100 in instance " ++ toString i)
          else if em ≤ 0 then
            throw ("evaluation_minutes must be a positive integer in instance " ++ toString i)
          else
            match idle.action with
            | some a =>
                if a ∉ valid_actions then
                  throw ("idle_shutdown action must be one of ['stop', 'terminate'] in instance "
                    ++ toString i)
                else pure ()
            | none => pure ()
  | none => pure ()

/-- `iam_role` check: present values must be non-blank strings. -/
def check_iam_role (i : Nat) (inst : InstanceSpec) : Except String Unit :=
  match inst.iam_role with
  | some (.str r) =>
      if pyStrip r = "" then
        throw ("iam_role must be a non-empty string in instance " ++ toString i)
      else pure ()
  | some .notStr =>
      throw ("iam_role must be a non-empty string in instance " ++ toString i)
  | none => pure ()

/-- Volume list check of the per-instance loop. -/
def check_instance_volumes (i : Nat) (inst : InstanceSpec) : Except String Unit :=
  match inst.volumes with
  | some vols => validate_volumes i 0 vols
  | none => pure ()

/-- Per-instance checks of `_validate_specification` (source lines 111-185),
in the source's order. -/
def validate_instance (i : Nat) (inst : InstanceSpec) : Except String Unit := do
  check_required_fields i inst
  check_user_data i inst
  check_idle_shutdown i inst
  check_iam_role i inst
  check_instance_volumes i inst

/-- The outer loop over `spec["instances"]`, carrying the enumeration index. -/
def validate_instances : Nat → List InstanceSpec → Except String Unit
  | _, [] => pure ()
  | i, inst :: rest => do
      validate_instance i inst
      validate_instances (i + 1) rest

/-- Embeds `_validate_specification` (source lines 92-187): pure, no
gateway access; fail-fast with the source's `ValueError` messages. -/
def validate_specification (s : SpecFile) : Except String Unit := do
  match s.instances with
  | none => throw "Missing required field in specification: instances"
  | some insts => validate_instances 0 insts

/-! ## Specification-side validity predicates

`volumeValidSpecWords` / `instanceValidSpecWords` / `specValidSpecWords` are
written from the design document's validation rules (its section 4.1): size
positive, type within the enum, mount point absolute and not reserved,
filesystem within the enum, device under `/dev/`, exactly one bootstrap
source, threshold within [0,100], positive integer evaluation minutes,
action within the enum, iam_role a non-empty string.  The document states no
constraint on `mount_options`.  The `Amended` forms strengthen this with the
two extra checks the source actually performs: `mount_options`, when
present, must be a non-blank string, and `iam_role` must be non-blank
(not merely non-empty). -/

def volumeValidSpecWords (v : VolumeSpec) : Bool :=
  (match v.size with | some n => decide (0 < n) | none => false) &&
  (match v.type with | some t => decide (t ∈ valid_volume_types) | none => true) &&
  (match v.mount_point with
   | some mp => pyStartsWith mp "/" && decide (mp ∉ dangerous_paths)
   | none => true) &&
  (match v.filesystem with | some fs => decide (fs ∈ supported_filesystems) | none => true) &&
  (match v.device with | some d => pyStartsWith d "/dev/" | none => true)

def volumeValidAmended (v : VolumeSpec) : Bool :=
  volumeValidSpecWords v &&
  (match v.mount_options with | some mo => decide (pyStrip mo ≠ "") | none => true)

def idleValid (inst : InstanceSpec) : Bool :=
  match inst.idle_shutdown with
  | some idle =>
    (match idle.cpu_threshold with | some t => decide (0 ≤ t ∧ t ≤ 100) | none => false) &&
    (match idle.evaluation_minutes with | some m => decide (0 < m) | none => false) &&
    (match idle.action with | some a => decide (a ∈ valid_actions) | none => true)
  | none => true

def userDataValid (inst : InstanceSpec) : Bool :=
  match inst.user_data with
  | some ud => ud.script_path.isSome != ud.inline_script.isSome
  | none => true

def instanceValidSpecWords (inst : InstanceSpec) : Bool :=
  inst.name.isSome && inst.instance_type.isSome && inst.ami_id.isSome &&
  userDataValid inst && idleValid inst &&
  (match inst.iam_role with
   | some (.str r) => decide (r ≠ "")
   | some .notStr => false
   | none => true) &&
  (match inst.volumes with | some vols => vols.all volumeValidSpecWords | none => true)

def instanceValidAmended (inst : InstanceSpec) : Bool :=
  inst.name.isSome && inst.instance_type.isSome && inst.ami_id.isSome &&
  userDataValid inst && idleValid inst &&
  (match inst.iam_role with
   | some (.str r) => decide (pyStrip r ≠ "")
   | some .notStr => false
   | none => true) &&
  (match inst.volumes with | some vols => vols.all volumeValidAmended | none => true)

def specValidSpecWords (s : SpecFile) : Bool :=
  match s.instances with
  | some l => l.all instanceValidSpecWords
  | none => false

def specValidAmended (s : SpecFile) : Bool :=
  match s.instances with
  | some l => l.all instanceValidAmended
  | none => false

/-! ## Validator / predicate equivalence -/

theorem pure_eq_ok : (pure () : Except String Unit) = .ok () := rfl

theorem except_seq_ok {a : Except String Unit} {f : Unit → Except String Unit} :
    (a >>= f) = .ok () ↔ a = .ok () ∧ f () = .ok () := by
  cases a with
  | error e => simp [Bind.bind, Except.bind]
  | ok u => cases u; simp [Bind.bind, Except.bind]

/-- A string that starts with a slash survives stripping: its strip is
non-empty. -/
theorem pyStrip_ne_of_slash {s : String} (h : pyStartsWith s "/" = true) :
    ¬ pyStrip s = "" := by
  have hd : ∃ t, s.data = '/' :: t := by
    have h2 : (['/'] : List Char).isPrefixOf s.data = true := h
    cases hs : s.data with
    | nil => rw [hs] at h2; simp [List.isPrefixOf] at h2
    | cons c t =>
        rw [hs] at h2
        simp [List.isPrefixOf] at h2
        exact ⟨t, by rw [h2]⟩
  obtain ⟨t, ht⟩ := hd
  intro hempty
  have : (pyStrip s).data = [] := by rw [hempty]
  unfold pyStrip at this
  simp only [ht] at this
  have hmem : '/' ∈ ('/' :: t : List Char) := List.mem_cons_self _ _
  have hnw : ('/' : Char).isWhitespace = false := by decide
  have h1 : ('/' :: t : List Char).dropWhile Char.isWhitespace = '/' :: t := by
    simp [List.dropWhile, hnw]
  rw [h1] at this
  have h2 := List.reverse_eq_nil_iff.mp this
  have h3 := List.dropWhile_eq_nil_iff.mp h2
  have h4 : ('/' : Char) ∈ ('/' :: t : List Char).reverse := by
    rw [List.mem_reverse]; exact hmem
  have := h3 _ h4
  rw [hnw] at this
  exact Bool.noConfusion this

theorem check_volume_size_ok (v : VolumeSpec) (i j : Nat) :
    check_volume_size v i j = .ok () ↔
      (match v.size with | some n => 0 < n | none => False) := by
  cases h : v.size with
  | none => simp [check_volume_size, h]
  | some n =>
      simp only [check_volume_size, h]
      split <;> rename_i hle
      · simp; omega
      · simp [pure_eq_ok]; omega

theorem check_volume_type_ok (v : VolumeSpec) (i j : Nat) :
    check_volume_type v i j = .ok () ↔
      (match v.type with | some t => t ∈ valid_volume_types | none => True) := by
  cases h : v.type with
  | none => simp [check_volume_type, h, pure_eq_ok]
  | some t =>
      simp only [check_volume_type, h]
      split <;> simp_all [pure_eq_ok]

theorem check_mount_point_ok (v : VolumeSpec) (i j : Nat) :
    check_mount_point v i j = .ok () ↔
      (match v.mount_point with
       | some mp => pyStartsWith mp "/" = true ∧ mp ∉ dangerous_paths
       | none => True) := by
  cases h : v.mount_point with
  | none => simp [check_mount_point, h, pure_eq_ok]
  | some mp =>
      simp only [check_mount_point, h]
      by_cases h1 : pyStrip mp = ""
      · simp only [h1, if_pos rfl]
        constructor
        · intro hc; exact absurd hc (by simp)
        · rintro ⟨hs, _⟩; exact absurd h1 (pyStrip_ne_of_slash hs)
      · rw [if_neg h1]
        by_cases h2 : pyStartsWith mp "/" = true
        · rw [if_neg (by simp [h2])]
          by_cases h3 : mp ∈ dangerous_paths
          · simp [if_pos h3, h3]
          · simp [if_neg h3, h2, h3, pure_eq_ok]
        · rw [if_pos (by simpa using h2)]
          simp [h2]

theorem check_filesystem_ok (v : VolumeSpec) (i j : Nat) :
    check_filesystem v i j = .ok () ↔
      (match v.filesystem with | some fs => fs ∈ supported_filesystems | none => True) := by
  cases h : v.filesystem with
  | none => simp [check_filesystem, h, pure_eq_ok]
  | some fs =>
      simp only [check_filesystem, h]
      split <;> simp_all [pure_eq_ok]

theorem check_mount_options_ok (v : VolumeSpec) (i j : Nat) :
    check_mount_options v i j = .ok () ↔
      (match v.mount_options with
       | some mo => ¬ pyStrip mo = ""
       | none => True) := by
  cases h : v.mount_options with
  | none => simp [check_mount_options, h, pure_eq_ok]
  | some mo =>
      simp only [check_mount_options, h]
      split <;> simp_all [pure_eq_ok]

theorem check_device_ok (v : VolumeSpec) (i j : Nat) :
    check_device v i j = .ok () ↔
      (match v.device with | some d => pyStartsWith d "/dev/" = true | none => True) := by
  cases h : v.device with
  | none => simp [check_device, h, pure_eq_ok]
  | some d =>
      simp only [check_device, h]
      split <;> simp_all [pure_eq_ok]

/-- The embedded volume validator accepts exactly the amended predicate. -/
theorem validate_volume_spec_ok (v : VolumeSpec) (i j : Nat) :
    validate_volume_spec v i j = .ok () ↔ volumeValidAmended v = true := by
  simp only [validate_volume_spec, except_seq_ok, check_volume_size_ok,
    check_volume_type_ok, check_mount_point_ok, check_filesystem_ok,
    check_mount_options_ok, check_device_ok, volumeValidAmended, volumeValidSpecWords]
  cases v.size <;> cases v.type <;> cases v.mount_point <;>
    cases v.filesystem <;> cases v.mount_options <;> cases v.device <;>
      simp <;> tauto

theorem check_required_fields_ok (i : Nat) (inst : InstanceSpec) :
    check_required_fields i inst = .ok () ↔
      (inst.name.isSome ∧ inst.instance_type.isSome ∧ inst.ami_id.isSome) := by
  unfold check_required_fields firstMissingField
  cases hn : inst.name <;> cases ht : inst.instance_type <;> cases ha : inst.ami_id <;>
    simp [pure_eq_ok]

theorem check_user_data_ok (i : Nat) (inst : InstanceSpec) :
    check_user_data i inst = .ok () ↔ userDataValid inst = true := by
  unfold check_user_data userDataValid
  cases h : inst.user_data with
  | none => simp [pure_eq_ok]
  | some ud =>
      cases hs : ud.script_path <;> cases hi : ud.inline_script <;>
        simp [hs, hi, pure_eq_ok]

theorem check_idle_shutdown_ok (i : Nat) (inst : InstanceSpec) :
    check_idle_shutdown i inst = .ok () ↔ idleValid inst = true := by
  unfold check_idle_shutdown idleValid
  cases h : inst.idle_shutdown with
  | none => simp [pure_eq_ok]
  | some idle =>
      cases hc : idle.cpu_threshold with
      | none => simp [hc]
      | some thr =>
          cases he : idle.evaluation_minutes with
          | none => simp [hc, he]
          | some em =>
              simp only [hc, he]
              by_cases hr : thr < 0 ∨ thr > 100
              · have hno : ¬ (0 ≤ thr ∧ thr ≤ 100) := by
                  rcases hr with hr | hr
                  · intro hx; exact absurd hx.1 (not_le.mpr hr)
                  · intro hx; exact absurd hx.2 (not_le.mpr hr)
                simp only [if_pos hr]
                simp [hno]
              · have hok : 0 ≤ thr ∧ thr ≤ 100 := by
                  constructor
                  · by_contra hx; exact hr (Or.inl (not_le.mp hx))
                  · by_contra hx; exact hr (Or.inr (not_le.mp hx))
                rw [if_neg hr]
                by_cases hm : em ≤ 0
                · have hno : ¬ (0 < em) := not_lt.mpr hm
                  simp only [if_pos hm]
                  simp [hno]
                · rw [if_neg hm]
                  have h0 : 0 < em := not_le.mp hm
                  cases hact : idle.action with
                  | none => simp [hact, hok.1, hok.2, h0, pure_eq_ok]
                  | some a =>
                      by_cases hv : a ∈ valid_actions
                      · simp [hact, hv, hok.1, hok.2, h0, pure_eq_ok]
                      · simp [hact, hv]

theorem check_iam_role_ok (i : Nat) (inst : InstanceSpec) :
    check_iam_role i inst = .ok () ↔
      (match inst.iam_role with
       | some (.str r) => ¬ pyStrip r = ""
       | some .notStr => False
       | none => True) := by
  unfold check_iam_role
  cases h : inst.iam_role with
  | none => simp [pure_eq_ok]
  | some v =>
      cases v with
      | notStr => simp
      | str r =>
          by_cases hs : pyStrip r = ""
          · simp [hs]
          · simp [hs, pure_eq_ok]

theorem validate_volumes_ok (i : Nat) :
    ∀ (vols : List VolumeSpec) (j : Nat),
      validate_volumes i j vols = .ok () ↔ vols.all volumeValidAmended = true := by
  intro vols
  induction vols with
  | nil => intro j; simp [validate_volumes, pure_eq_ok]
  | cons v rest ih =>
      intro j
      simp only [validate_volumes, except_seq_ok, List.all_cons, Bool.and_eq_true]
      rw [validate_volume_spec_ok v i j, ih (j + 1)]

theorem check_instance_volumes_ok (i : Nat) (inst : InstanceSpec) :
    check_instance_volumes i inst = .ok () ↔
      (match inst.volumes with
       | some vols => vols.all volumeValidAmended = true
       | none => True) := by
  unfold check_instance_volumes
  cases h : inst.volumes with
  | none => simp [pure_eq_ok]
  | some vols => simp [validate_volumes_ok]

/-- The per-instance validator accepts exactly the amended per-instance
predicate. -/
theorem validate_instance_ok (i : Nat) (inst : InstanceSpec) :
    validate_instance i inst = .ok () ↔ instanceValidAmended inst = true := by
  simp only [validate_instance, except_seq_ok, check_required_fields_ok,
    check_user_data_ok, check_idle_shutdown_ok, check_iam_role_ok,
    check_instance_volumes_ok, instanceValidAmended, Bool.and_eq_true]
  constructor
  · rintro ⟨⟨h1, h2, h3⟩, h4, h5, h6, h7⟩
    refine ⟨⟨⟨⟨⟨⟨h1, h2⟩, h3⟩, h4⟩, h5⟩, ?_⟩, ?_⟩
    · cases h : inst.iam_role with
      | none => simp
      | some v =>
          cases v with
          | notStr => rw [h] at h6; exact absurd h6 (by simp)
          | str r => rw [h] at h6; simpa using h6
    · cases h : inst.volumes with
      | none => simp
      | some vols => rw [h] at h7; simpa using h7
  · rintro ⟨⟨⟨⟨⟨⟨h1, h2⟩, h3⟩, h4⟩, h5⟩, h6⟩, h7⟩
    refine ⟨⟨h1, h2, h3⟩, h4, h5, ?_, ?_⟩
    · cases h : inst.iam_role with
      | none => simp
      | some v =>
          cases v with
          | notStr => rw [h] at h6; exact absurd h6 (by simp)
          | str r => rw [h] at h6; simpa using h6
    · cases h : inst.volumes with
      | none => simp
      | some vols => rw [h] at h7; simpa using h7

theorem validate_instances_ok :
    ∀ (l : List InstanceSpec) (i : Nat),
      validate_instances i l = .ok () ↔ l.all instanceValidAmended = true := by
  intro l
  induction l with
  | nil => intro i; simp [validate_instances, pure_eq_ok]
  | cons inst rest ih =>
      intro i
      simp only [validate_instances, except_seq_ok, List.all_cons, Bool.and_eq_true]
      rw [validate_instance_ok i inst, ih (i + 1)]

/-- Fail-fast: once a prefix of instances validates, the loop continues at
the instance after it with the shifted index. -/
theorem validate_instances_append (pre : List InstanceSpec) :
    ∀ (i : Nat), validate_instances i pre = .ok () →
      ∀ (l : List InstanceSpec),
        validate_instances i (pre ++ l) = validate_instances (i + pre.length) l := by
  induction pre with
  | nil => intro i _ l; simp [validate_instances]
  | cons p pre' ih =>
      intro i hok l
      rw [validate_instances] at hok
      rw [except_seq_ok] at hok
      have h1 := hok.1
      have h2 := hok.2
      show validate_instances i (p :: (pre' ++ l)) = _
      rw [validate_instances, h1]
      have : (Except.ok () : Except String Unit) >>= (fun _ => validate_instances (i + 1) (pre' ++ l)) =
          validate_instances (i + 1) (pre' ++ l) := rfl
      rw [this, ih (i + 1) h2 l]
      congr 1
      simp [List.length_cons]
      omega

/-! ## Claim C5: validator correctness -/

/-- A well-formed instance declaration used as a concrete test vector. -/
def vInstW : InstanceSpec :=
  { InstanceSpec.default with
      name := some "web", instance_type := some "t3.micro", ami_id := some "ami-123" }

/-- An instance declaration with `name` missing. -/
def mInstW : InstanceSpec :=
  { InstanceSpec.default with instance_type := some "t3.micro", ami_id := some "ami-456" }

/-- A specification whose second instance is missing `name`. -/
def specW : SpecFile := ⟨some [vInstW, mInstW], none⟩

/-- A specification that satisfies every validation rule the design document
states (its section 4.1 has no constraint on `mount_options`), but carries an
empty `mount_options` string. -/
def specCE : SpecFile :=
  ⟨some [{ vInstW with
      volumes := some [{ VolumeSpec.default with
        size := some 10, mount_options := some "" }] }], none⟩

/-- C5 counterexample: `specCE` is valid under the specification's own
validation rules, yet the source's validator rejects it (the source also
checks that `mount_options` is a non-blank string, a rule the specification
does not state), so "validate succeeds exactly when the specification is
valid" fails as stated. -/
theorem validate_rejects_spec_level_valid_input :
    specValidSpecWords specCE = true ∧
      validate_specification specCE =
        .error "Mount options must be a non-empty string in instance 0, volume 0" := by
  constructor
  · decide
  · rfl

/-- C5 (amended): the validator succeeds exactly on specifications valid in
the amended sense (the specification's section 4.1 rules strengthened by the
two checks the source adds: a present `mount_options` must be a non-blank
string, and `iam_role` must be non-blank rather than merely non-empty); and
an instance whose first missing required field is `f`, all earlier instances
being valid, is rejected with an error naming `f` and the instance index.
Validation is a pure function of the parsed document: no gateway argument. -/
theorem validate_specification_correct :
    (∀ s : SpecFile, validate_specification s = .ok () ↔ specValidAmended s = true) ∧
    (∀ (s : SpecFile) (pre : List InstanceSpec) (inst : InstanceSpec)
        (rest : List InstanceSpec) (f : String),
      s.instances = some (pre ++ inst :: rest) →
      validate_instances 0 pre = .ok () →
      firstMissingField inst = some f →
      validate_specification s =
        .error ("Missing required field '" ++ f ++ "' in instance " ++ toString pre.length)) := by
  constructor
  · intro s
    unfold validate_specification specValidAmended
    cases h : s.instances with
    | none => simp
    | some l => simp [validate_instances_ok]
  · intro s pre inst rest f hs hpre hf
    unfold validate_specification
    simp only [hs]
    rw [validate_instances_append pre 0 hpre]
    show validate_instances (0 + pre.length) (inst :: rest) = _
    rw [validate_instances]
    have h1 : validate_instance (0 + pre.length) inst =
        .error (missingFieldMsg f (0 + pre.length)) := by
      unfold validate_instance check_required_fields
      simp only [hf]
      rfl
    rw [h1]
    show Except.error (missingFieldMsg f (0 + pre.length)) = _
    unfold missingFieldMsg
    rw [Nat.zero_add]

/-- Witness for C5: the amended equivalence and the missing-field error
evaluated on concrete specifications. -/
theorem validate_specification_correct_witness :
    (validate_specification specW =
      .error ("Missing required field '" ++ "name" ++ "' in instance " ++ toString (1 : Nat))) ∧
    (validate_specification specCE = .ok () ↔ specValidAmended specCE = true) := by
  constructor
  · exact validate_specification_correct.2 specW [vInstW] mInstW [] "name" rfl rfl rfl
  · exact validate_specification_correct.1 specCE

/-! ## Bootstrap script assembly

Embedding of `_generate_volume_mount_script` (source lines 323-441) and
`_prepare_user_data` (source lines 443-570).  Python's `"\n".join` becomes
`joinNL`; the shell text is reproduced verbatim (shell braces written with
hex escapes). -/

/-- Python `"\n".join(parts)`. -/
def joinNL : List String → String
  | [] => ""
  | [x] => x
  | x :: y :: rest => x ++ "\n" ++ joinNL (y :: rest)

/-- Header block of the volume-mount stanza (shell helpers). -/
def mountHeaderLines : List String :=
  [ "# === AUTOMATIC VOLUME MOUNTING ===",
    "echo 'Starting volume mounting process...'",
    "",
    "# Function to wait for device",
    "wait_for_device() \x7b",
    "    local device=$1",
    "    local timeout=300  # 5 minutes",
    "    local count=0",
    "    echo \"Waiting for device $device to be available...\"",
    "    while [ ! -e \"$device\" ] && [ $count -lt $timeout ]; do",
    "        sleep 1",
    "        count=$((count + 1))",
    "    done",
    "    if [ ! -e \"$device\" ]; then",
    "        echo \"ERROR: Device $device not available after $\x7btimeout\x7ds\"",
    "        return 1",
    "    fi",
    "    echo \"Device $device is available\"",
    "    return 0",
    "\x7d",
    "",
    "# Function to check if device is already formatted",
    "is_formatted() \x7b",
    "    local device=$1",
    "    blkid \"$device\" >/dev/null 2>&1",
    "\x7d",
    "" ]

/-- The per-volume mount block (format, mount, fstab, permissions). -/
def perVolumeLines (device mp fs opts : String) : List String :=
  [ "# Mount " ++ device ++ " to " ++ mp,
    "echo 'Processing volume: " ++ device ++ " -> " ++ mp ++ "'",
    "",
    "# Wait for device to be available",
    "if ! wait_for_device '" ++ device ++ "'; then",
    "    echo 'ERROR: Failed to mount " ++ device ++ " - device not available'",
    "    exit 1",
    "fi",
    "",
    "# Create mount point directory",
    "mkdir -p '" ++ mp ++ "'",
    "",
    "# Format the volume if not already formatted",
    "if ! is_formatted '" ++ device ++ "'; then",
    "    echo 'Formatting " ++ device ++ " with " ++ fs ++ " filesystem...'",
    "    mkfs." ++ fs ++ " '" ++ device ++ "'",
    "    if [ $? -ne 0 ]; then",
    "        echo 'ERROR: Failed to format " ++ device ++ "'",
    "        exit 1",
    "    fi",
    "else",
    "    echo 'Device " ++ device ++ " is already formatted'",
    "fi",
    "",
    "# Mount the volume",
    "echo 'Mounting " ++ device ++ " to " ++ mp ++ "...'",
    "mount -o '" ++ opts ++ "' '" ++ device ++ "' '" ++ mp ++ "'",
    "if [ $? -ne 0 ]; then",
    "    echo 'ERROR: Failed to mount " ++ device ++ " to " ++ mp ++ "'",
    "    exit 1",
    "fi",
    "",
    "# Add to fstab for persistence",
    "if ! grep -q '^" ++ device ++ "' /etc/fstab; then",
    "    echo '" ++ device ++ " " ++ mp ++ " " ++ fs ++ " " ++ opts ++
      " 0 2' >> /etc/fstab",
    "    echo 'Added " ++ device ++ " to /etc/fstab'",
    "else",
    "    echo 'Entry for " ++ device ++ " already exists in /etc/fstab'",
    "fi",
    "",
    "# Set permissions (make accessible to ec2-user)",
    "chown ec2-user:ec2-user '" ++ mp ++ "'",
    "chmod 755 '" ++ mp ++ "'",
    "",
    "echo 'Successfully mounted " ++ device ++ " to " ++ mp ++ "'",
    "" ]

/-- Mount lines of one volume, defaults applied as in the source. -/
def volMountLines (v : VolumeSpec) : List String :=
  match v.mount_point with
  | none => []
  | some mp =>
      perVolumeLines (v.device.getD "/dev/sdf") mp
        (v.filesystem.getD "ext4") (v.mount_options.getD "defaults")

/-- Footer block of the volume-mount stanza. -/
def mountFooterLines : List String :=
  [ "echo 'Volume mounting process completed'",
    "echo 'Current mounts:'",
    "df -h",
    "" ]

/-- The volumes of an instance that carry a `mount_point`. -/
def volumesWithMounts (ispec : InstanceSpec) : List VolumeSpec :=
  (ispec.volumes.getD []).filter (fun v => v.mount_point.isSome)

/-- Embeds `_generate_volume_mount_script`: empty when no volume carries a
mount point, otherwise header, one block per mounted volume, footer. -/
def generate_volume_mount_script (ispec : InstanceSpec) : String :=
  match ispec.volumes with
  | none => ""
  | some vols =>
      let vwm := vols.filter (fun v => v.mount_point.isSome)
      if vwm = [] then ""
      else joinNL (mountHeaderLines ++ vwm.flatMap volMountLines ++ mountFooterLines)

/-- Header of the assembled user-data script (shebang, comments, logging
setup, start banner). -/
def headerParts (name now : String) : List String :=
  [ "#!/bin/bash",
    "# AWS Automation Script - User Data Execution",
    "# Instance: " ++ name,
    "# Generated: " ++ now,
    "",
    "set -e  # Exit on any error",
    "",
    "# Set up logging",
    "LOG_FILE=\"/var/log/user-data-execution.log\"",
    "exec > >(tee -a \"$LOG_FILE\")",
    "exec 2>&1",
    "",
    "echo \"===== User Data Script Execution Started =====\"",
    "echo \"Timestamp: $(date)\"",
    "echo \"Instance Name: " ++ name ++ "\"",
    "echo \"==============================================\"",
    "" ]

/-- Mount section of the user-data parts list: present only when the mount
script is non-empty. -/
def mountSection (ispec : InstanceSpec) : List String :=
  let ms := generate_volume_mount_script ispec
  if ms = "" then []
  else [ms, "echo \"Volume mounting completed successfully\"", ""]

def userSectionHeader : List String :=
  [ "# === USER CUSTOM SCRIPT ===",
    "echo \"Starting user custom script...\"",
    "" ]

/-- User custom-script section: loads `script_path` through the file oracle
(`FileNotFoundError` when absent) or uses `inline_script` directly. -/
def userSection (files : String → Option String) (ud : Option UserDataCfg) :
    Except String (List String) :=
  match ud with
  | none => .ok []
  | some cfg =>
      match cfg.script_path with
      | some p =>
          match files p with
          | none => .error p
          | some content => .ok (userSectionHeader ++ [content])
      | none =>
          match cfg.inline_script with
          | some sc => .ok (userSectionHeader ++ [sc])
          | none => .ok userSectionHeader

/-- Per-volume mount verification lines. -/
def verifyLines (v : VolumeSpec) : List String :=
  match v.mount_point with
  | none => []
  | some mp =>
      [ "if mountpoint -q '" ++ mp ++ "'; then",
        "    echo \"✓ " ++ mp ++ " is properly mounted\"",
        "else",
        "    echo \"✗ ERROR: " ++ mp ++ " is not mounted\"",
        "    exit 1",
        "fi" ]

/-- Mount-verification section of the user-data parts list. -/
def verifySection (ispec : InstanceSpec) : List String :=
  if volumesWithMounts ispec = [] then []
  else
    [ "", "# === MOUNT VERIFICATION ===", "echo \"Verifying mounts...\"", "df -h" ] ++
      (volumesWithMounts ispec).flatMap verifyLines ++
      [ "echo \"All mount points verified successfully\"", "" ]

/-- Completion banner of the user-data script. -/
def finalParts : List String :=
  [ "echo \"==============================================\"",
    "echo \"User Data Script Execution Completed Successfully\"",
    "echo \"Timestamp: $(date)\"",
    "echo \"==============================================\"" ]

/-! ## Cloud gateway model

The boto3 clients become an oracle environment `Env`; each method of the
manager becomes a function threading a state `St` that holds the mutable
`created_resources` manifest, the set of alarms live in the cloud (so that
a `describe_alarms` after a `put_metric_alarm` observes the new alarm), and
the trace of gateway calls issued.  A Python exception is an `Except.error`
paired with the state at the moment of the raise — `self.created_resources`
keeps its mutations when an exception propagates.  Gateway API failures are
`ClientError`s (caught by the source's `except ClientError` handlers);
waiter timeouts are `WaiterError`s, which those handlers do not catch. -/

/-- Python exceptions distinguished by the source's handlers. -/
inductive AwsErr where
  | clientErr (msg : String)
  | waiterErr (msg : String)
  | keyErr (key : String)
  | fileErr (path : String)
deriving DecidableEq, Repr

/-- An instance found by the idempotency probe: the dict
`{id, name, state}` built by `_get_existing_resources`. -/
structure ExistInst where
  id : String
  name : String
  state : String
deriving DecidableEq, Repr

/-- The dictionary `_get_existing_resources` returns.  The source
initialises it as `{"instances": [], "volumes": []}` and never inserts an
`"alarms"` key, so that key is modelled as an `Option` that stays `none`;
reading it raises `KeyError` like the Python subscript would. -/
structure ExistingDict where
  instances : List ExistInst
  volumes : List String
  alarms : Option (List String)
deriving DecidableEq, Repr

/-- `describe_volumes` result as used by rollback: state and attached
instance ids. -/
structure VolInfo where
  state : String
  attachments : List String
deriving DecidableEq, Repr

/-- A raw instance record of a `describe_instances` response, as read by
`get_instance_connection_info`. -/
structure RawInst where
  id : String
  tags : List (String × String)
  publicIp : Option String
  state : String
deriving DecidableEq, Repr

/-- Connection-info entry built by `get_instance_connection_info`. -/
structure ConnInfo where
  instance_id : String
  name : String
  public_ip : String
  state : String
deriving DecidableEq, Repr

/-- Parameters of a `run_instances` call, as assembled by
`_create_ec2_instance`. -/
structure RunParams where
  imageId : String
  instanceType : String
  tags : List (String × String)
  keyName : Option String
  securityGroups : Option (List String)
  subnetId : Option String
  spot : Bool
  spotMaxPrice : Option String
  userData : Option String
  iamProfile : Option StrVal
deriving DecidableEq, Repr

/-- Parameters of a `create_volume` call. -/
structure VolParams where
  size : Int
  volumeType : String
  availabilityZone : String
  nameTag : String
  iops : Option Int
  encrypted : Bool
deriving DecidableEq, Repr

/-- Parameters of a `put_metric_alarm` call. -/
structure AlarmParams where
  alarmName : String
  alarmDescription : String
  actionsEnabled : Bool
  alarmActions : List String
  metricName : String
  nspace : String
  statistic : String
  dimensions : List (String × String)
  period : Int
  evaluationPeriods : Int
  threshold : Rat
  comparisonOperator : String
  treatMissingData : String
deriving DecidableEq, Repr

/-- One gateway call, recorded in issue order. -/
inductive Call where
  | describeInstancesByName (name : String)
  | runInstances (p : RunParams)
  | waitInstanceRunning (id : String)
  | describeInstanceAZ (id : String)
  | createVolume (p : VolParams)
  | waitVolumeAvailable (id : String)
  | attachVolume (vol inst dev : String)
  | describeAlarms (names : List String)
  | putMetricAlarm (p : AlarmParams)
  | deleteAlarms (names : List String)
  | describeVolumes (id : String)
  | detachVolume (id : String)
  | deleteVolume (id : String)
  | terminateInstances (ids : List String)
  | describeConnInfo (ids : List String)
deriving DecidableEq, Repr

/-- The calls that create a billable resource. -/
def Call.isCreation : Call → Bool
  | .runInstances _ => true
  | .createVolume _ => true
  | .putMetricAlarm _ => true
  | _ => false

/-- Calls issued by the volume phase of rollback. -/
def Call.isVolumeRollback : Call → Bool
  | .describeVolumes _ => true
  | .detachVolume _ => true
  | .waitVolumeAvailable _ => true
  | .deleteVolume _ => true
  | _ => false

/-- `self.created_resources`. -/
structure Manifest where
  instances : List String
  volumes : List String
  alarms : List String
deriving DecidableEq, Repr

def Manifest.empty : Manifest := ⟨[], [], []⟩

/-- Mutable state threaded through the manager's methods. -/
structure St where
  created : Manifest
  worldAlarms : List String
  log : List Call
deriving DecidableEq, Repr

/-- Record a gateway call in the trace. -/
def logC (c : Call) (st : St) : St := { st with log := st.log ++ [c] }

/-- Number of `create_volume` calls in a trace (the index fed to the
volume-id oracle). -/
def countCV (log : List Call) : Nat :=
  log.countP (fun c => match c with | .createVolume _ => true | _ => false)

/-- Number of `volume_available` waits in a trace (the index fed to the
volume-wait oracle). -/
def countWV (log : List Call) : Nat :=
  log.countP (fun c => match c with | .waitVolumeAvailable _ => true | _ => false)

/-- Number of `put_metric_alarm` calls in a trace. -/
def countPut (log : List Call) : Nat :=
  log.countP (fun c => match c with | .putMetricAlarm _ => true | _ => false)

/-- The oracle environment standing for the AWS account and its APIs.
API-call oracles return `Except String` (`ClientError` message on error);
waiter oracles return `Option String` (`WaiterError` message on timeout,
indexed by how many waits of that kind have already been issued where the
same resource can be waited on more than once). -/
structure Env where
  region : String
  describeByName : String → Except String (List ExistInst)
  runInstances : RunParams → Except String String
  waitRunning : String → Option String
  instanceAZ : String → Except String String
  createVolume : Nat → Except String String
  waitVolume : Nat → Option String
  attach : String → String → String → Except String Unit
  describeAlarmErr : String → Option String
  putAlarm : AlarmParams → Except String Unit
  deleteAlarmsE : List String → Except String Unit
  describeVolume : String → Except String VolInfo
  detach : String → Except String Unit
  deleteVol : String → Except String Unit
  terminate : List String → Except String Unit
  connInfo : List String → Except String (List RawInst)

/-! ## Manager operations -/

/-- Recursion of `_get_existing_resources` over the declared instances: one
`describe_instances` per name; a `ClientError` is logged and the name
skipped; matches are recorded as `{id, name, state}` with the declared name. -/
def get_existing_rec (env : Env) :
    List InstanceSpec → ExistingDict → St → (Except AwsErr ExistingDict) × St
  | [], acc, st => (.ok acc, st)
  | ispec :: rest, acc, st =>
      match ispec.name with
      | none => (.error (.keyErr "name"), st)
      | some nm =>
          let st1 := logC (.describeInstancesByName nm) st
          match env.describeByName nm with
          | .error _ => get_existing_rec env rest acc st1
          | .ok found =>
              get_existing_rec env rest
                { acc with instances :=
                    acc.instances ++ found.map (fun e => ⟨e.id, nm, e.state⟩) } st1

/-- Embeds `_get_existing_resources` (source lines 280-321).  The result
dict starts as `{"instances": [], "volumes": []}`: no `"alarms"` key. -/
def get_existing_resources (env : Env) (s : SpecFile) (st : St) :
    (Except AwsErr ExistingDict) × St :=
  match s.instances with
  | none => (.error (.keyErr "instances"), st)
  | some insts => get_existing_rec env insts ⟨[], [], none⟩ st

/-- Embeds `_prepare_user_data` (source lines 443-570): header, then mount
section, then user custom script, then mount verification, then completion
banner, joined with newlines. -/
def prepare_user_data (files : String → Option String) (now : String)
    (ispec : InstanceSpec) : Except AwsErr String :=
  match ispec.name with
  | none => .error (.keyErr "name")
  | some nm =>
      match userSection files ispec.user_data with
      | .error p => .error (.fileErr p)
      | .ok us =>
          .ok (joinNL (headerParts nm now ++ mountSection ispec ++ us ++
            verifySection ispec ++ finalParts))

/-- The `run_instances` parameter dict assembled by `_create_ec2_instance`
(source lines 584-642): required fields, tags, optional key, security
groups, subnet, spot market options, user data (only when non-empty — the
source guards with string truthiness), IAM profile. -/
def build_run_params (files : String → Option String) (now : String)
    (ispec : InstanceSpec) : Except AwsErr RunParams :=
  match ispec.ami_id with
  | none => .error (.keyErr "ami_id")
  | some ami =>
  match ispec.instance_type with
  | none => .error (.keyErr "instance_type")
  | some ity =>
  match ispec.name with
  | none => .error (.keyErr "name")
  | some nm =>
      let market := ispec.market_type.getD "on-demand"
      match prepare_user_data files now ispec with
      | .error e => .error e
      | .ok script =>
          .ok { imageId := ami,
                instanceType := ity,
                tags := [("Name", nm), ("CreatedBy", "aws-automation-script"),
                  ("CreatedAt", now)] ++ ispec.tags.getD [],
                keyName := ispec.key_name,
                securityGroups := ispec.security_groups,
                subnetId := ispec.subnet_id,
                spot := market = "spot",
                spotMaxPrice := if market = "spot" then ispec.spot_price else none,
                userData := if script = "" then none else some script,
                iamProfile := ispec.iam_role }

/-- Embeds `_create_ec2_instance` (source lines 572-664): issue
`run_instances`, append the returned id to the manifest, then wait for the
running state.  A `ClientError` from the API and a `WaiterError` from the
wait both propagate (the handler re-raises). -/
def create_ec2_instance (env : Env) (files : String → Option String)
    (now : String) (ispec : InstanceSpec) (st : St) : Except AwsErr String × St :=
  match build_run_params files now ispec with
  | .error e => (.error e, st)
  | .ok p =>
      let st1 := logC (.runInstances p) st
      match env.runInstances p with
      | .error m => (.error (.clientErr m), st1)
      | .ok iid =>
          let st2 := { st1 with created :=
            { st1.created with instances := st1.created.instances ++ [iid] } }
          let st3 := logC (.waitInstanceRunning iid) st2
          match env.waitRunning iid with
          | some m => (.error (.waiterErr m), st3)
          | none => (.ok iid, st3)

/-- The `create_volume` parameter dict of `_create_and_attach_volumes`
(source lines 695-726): size, type (default gp3), the instance's zone, a
name tag from instance name and device, `Iops` only for gp3/io1/io2, and
the encrypted flag. -/
def volParamsOf (v : VolumeSpec) (az nm : String) (sz : Int) : VolParams :=
  { size := sz,
    volumeType := v.type.getD "gp3",
    availabilityZone := az,
    nameTag := nm ++ "-" ++ v.device.getD "additional",
    iops := match v.type, v.iops with
      | some t, some io => if t ∈ ["gp3", "io1", "io2"] then some io else none
      | _, _ => none,
    encrypted := v.encrypted.getD false }

/-- The volume loop of `_create_and_attach_volumes` (source lines 693-756):
per declared volume, create (id appended to the manifest immediately), wait
until available, attach at the declared device. -/
def vols_loop (env : Env) (iid : String) (ispec : InstanceSpec) (az : String) :
    List VolumeSpec → List String → St → Except AwsErr (List String) × St
  | [], acc, st => (.ok acc, st)
  | v :: rest, acc, st =>
      match v.size with
      | none => (.error (.keyErr "size"), st)
      | some sz =>
      match ispec.name with
      | none => (.error (.keyErr "name"), st)
      | some nm =>
        let p : VolParams := volParamsOf v az nm sz
        let st1 := logC (.createVolume p) st
        match env.createVolume (countCV st.log) with
        | .error m => (.error (.clientErr m), st1)
        | .ok vid =>
            let st2 := { st1 with created :=
              { st1.created with volumes := st1.created.volumes ++ [vid] } }
            let st3 := logC (.waitVolumeAvailable vid) st2
            match env.waitVolume (countWV st2.log) with
            | some m => (.error (.waiterErr m), st3)
            | none =>
                let dev := v.device.getD "/dev/sdf"
                let st4 := logC (.attachVolume vid iid dev) st3
                match env.attach vid iid dev with
                | .error m => (.error (.clientErr m), st4)
                | .ok _ => vols_loop env iid ispec az rest (acc ++ [vid]) st4

/-- Embeds `_create_and_attach_volumes` (source lines 666-756): nothing to
do without a `volumes` key; otherwise look up the instance's availability
zone and run the volume loop. -/
def create_and_attach_volumes (env : Env) (iid : String) (ispec : InstanceSpec)
    (st : St) : Except AwsErr (List String) × St :=
  match ispec.volumes with
  | none => (.ok [], st)
  | some vols =>
      let st1 := logC (.describeInstanceAZ iid) st
      match env.instanceAZ iid with
      | .error m => (.error (.clientErr m), st1)
      | .ok az => vols_loop env iid ispec az vols [] st1

/-- The alarm name `_create_idle_shutdown_alarm` derives. -/
def alarmNameOf (nm iid : String) : String := "idle-shutdown-" ++ nm ++ "-" ++ iid

/-- The `put_metric_alarm` parameters `_create_idle_shutdown_alarm`
assembles (source lines 806-821): CPU-utilization average over fixed
300-second periods, `EvaluationPeriods` the floor division of the declared
evaluation minutes by 5, comparison `LessThanThreshold`, missing data
`notBreaching`, action targeting stop/terminate of the instance. -/
def alarmParamsOf (region nm iid action : String) (thr : Rat) (em : Int) : AlarmParams :=
  { alarmName := alarmNameOf nm iid,
    alarmDescription := "Idle shutdown alarm for " ++ nm ++ " - " ++ action ++
      " instance when CPU < " ++ toString thr ++ "% for " ++
      toString em ++ " minutes",
    actionsEnabled := true,
    alarmActions := ["arn:aws:automate:" ++ region ++ ":ec2:" ++ action],
    metricName := "CPUUtilization",
    nspace := "AWS/EC2",
    statistic := "Average",
    dimensions := [("InstanceId", iid)],
    period := 300,
    evaluationPeriods := em.fdiv 5,
    threshold := thr,
    comparisonOperator := "LessThanThreshold",
    treatMissingData := "notBreaching" }

/-- Embeds `_create_idle_shutdown_alarm` (source lines 758-833): `None`
without an `idle_shutdown` key; otherwise derive the alarm name, return it
without creating anything if `describe_alarms` reports it (a `ClientError`
from the describe is swallowed and treated as absent), else issue
`put_metric_alarm` with period 300, `EvaluationPeriods` the floor division
of the evaluation minutes by 5, comparison `LessThanThreshold`, missing
data `notBreaching`, and append the name to the manifest. -/
def create_idle_shutdown_alarm (env : Env) (iid : String) (ispec : InstanceSpec)
    (st : St) : Except AwsErr (Option String) × St :=
  match ispec.idle_shutdown with
  | none => (.ok none, st)
  | some cfg =>
      match ispec.name with
      | none => (.error (.keyErr "name"), st)
      | some nm =>
      match cfg.cpu_threshold with
      | none => (.error (.keyErr "cpu_threshold"), st)
      | some thr =>
      match cfg.evaluation_minutes with
      | none => (.error (.keyErr "evaluation_minutes"), st)
      | some em =>
        let action := cfg.action.getD "stop"
        let aname := alarmNameOf nm iid
        let p : AlarmParams := alarmParamsOf env.region nm iid action thr em
        let st1 := logC (.describeAlarms [aname]) st
        let existsAlready : Bool :=
          match env.describeAlarmErr aname with
          | some _ => false
          | none => st1.worldAlarms.contains aname
        if existsAlready then (.ok (some aname), st1)
        else
          let st2 := logC (.putMetricAlarm p) st1
          match env.putAlarm p with
          | .error m => (.error (.clientErr m), st2)
          | .ok _ =>
              (.ok (some aname),
                { st2 with
                  worldAlarms := st2.worldAlarms ++ [aname],
                  created := { st2.created with alarms := st2.created.alarms ++ [aname] } })

/-- Embeds `get_instance_connection_info` (source lines 1208-1260): empty
input short-circuits without a call; otherwise one `describe_instances`,
mapping each result to name (first `Name` tag, default `Unknown`), public
ip (default `No public IP`) and state. -/
def get_instance_connection_info (env : Env) (ids : List String) (st : St) :
    Except AwsErr (List ConnInfo) × St :=
  if ids = [] then (.ok [], st)
  else
    let st1 := logC (.describeConnInfo ids) st
    match env.connInfo ids with
    | .error m => (.error (.clientErr m), st1)
    | .ok raws =>
        (.ok (raws.map (fun r =>
          { instance_id := r.id,
            name := (r.tags.lookup "Name").getD "Unknown",
            public_ip := r.publicIp.getD "No public IP",
            state := r.state })), st1)

/-! ## Rollback -/

/-- Outcome of the detach loop of one volume's rollback. -/
inductive RbStep where
  | proceed
  | skipVolume
  | abortRb (e : AwsErr)
deriving DecidableEq, Repr

/-- Detach phase of one volume's rollback (source lines 921-931): one
`detach_volume` per attachment, then a `volume_available` wait.  A
`ClientError` from the detach skips the rest of this volume's rollback (it
is caught by the per-volume handler); a `WaiterError` from the wait is
caught by nothing and aborts the whole rollback. -/
def rollback_detach (env : Env) (vid : String) :
    List String → St → RbStep × St
  | [], st => (.proceed, st)
  | _ :: rest, st =>
      let st1 := logC (.detachVolume vid) st
      match env.detach vid with
      | .error _ => (.skipVolume, st1)
      | .ok _ =>
          let st2 := logC (.waitVolumeAvailable vid) st1
          match env.waitVolume (countWV st1.log) with
          | some m => (.abortRb (.waiterErr m), st2)
          | none => rollback_detach env vid rest st2

/-- `delete_volume` with its `ClientError` swallowed. -/
def rollback_delete_one (env : Env) (vid : String) (st : St) : St :=
  let st1 := logC (.deleteVolume vid) st
  match env.deleteVol vid with
  | .ok _ => st1
  | .error _ => st1

/-- Alarm phase of `rollback_resources` (source lines 903-911): delete each
alarm, `ClientError`s logged and swallowed. -/
def rollback_alarms (env : Env) : List String → St → St
  | [], st => st
  | a :: rest, st =>
      let st1 := logC (.deleteAlarms [a]) st
      match env.deleteAlarmsE [a] with
      | .ok _ => rollback_alarms env rest st1
      | .error _ => rollback_alarms env rest st1

/-- Volume phase of `rollback_resources` (source lines 914-938): describe,
detach-if-in-use with wait, delete; each volume's `ClientError` is caught
and the loop continues, but a `WaiterError` from the detach wait
propagates. -/
def rollback_volumes (env : Env) : List String → St → Except AwsErr Unit × St
  | [], st => (.ok (), st)
  | vid :: rest, st =>
      let st1 := logC (.describeVolumes vid) st
      match env.describeVolume vid with
      | .error _ => rollback_volumes env rest st1
      | .ok info =>
          if info.state = "in-use" then
            match rollback_detach env vid info.attachments st1 with
            | (.abortRb e, st2) => (.error e, st2)
            | (.skipVolume, st2) => rollback_volumes env rest st2
            | (.proceed, st2) => rollback_volumes env rest (rollback_delete_one env vid st2)
          else
            rollback_volumes env rest (rollback_delete_one env vid st1)

/-- Volume and instance phases of `rollback_resources`: volumes (a
`WaiterError` propagating), then one `terminate_instances` for the whole
manifest (no wait, `ClientError` swallowed). -/
def rollback_after_alarms (env : Env) (st1 : St) : Except AwsErr Unit × St :=
  match rollback_volumes env st1.created.volumes st1 with
  | (.error e, st2) => (.error e, st2)
  | (.ok _, st2) =>
      if st2.created.instances = [] then (.ok (), st2)
      else
        let st3 := logC (.terminateInstances st2.created.instances) st2
        match env.terminate st2.created.instances with
        | .ok _ => (.ok (), st3)
        | .error _ => (.ok (), st3)

/-- Embeds `rollback_resources` (source lines 898-950): alarms first, then
volumes, then instance termination.  The manifest itself is never
mutated. -/
def rollback_resources (env : Env) (st : St) : Except AwsErr Unit × St :=
  rollback_after_alarms env (rollback_alarms env st.created.alarms st)

/-! ## Provisioning orchestrator -/

/-- The `provisioned` accumulator dict of `provision_resources`. -/
structure ProvAcc where
  instances : List String
  volumes : List String
  alarms : List String
deriving DecidableEq, Repr

/-- Result of `provision_resources`: either the resources created by this
run plus connection info, or (intended, see the `KeyError`) the existing
resources found by the idempotency probe. -/
inductive ProvisionResult where
  | created (acc : ProvAcc) (connection_info : List ConnInfo)
  | existingRes (instances : List ExistInst) (volumes : List String)
      (alarms : List String) (connection_info : List ConnInfo)
deriving DecidableEq, Repr

/-- Per-instance creation loop of `provision_resources` (source lines
867-881): create instance, volumes, then alarm; first exception aborts. -/
def provision_loop (env : Env) (files : String → Option String) (now : String) :
    List InstanceSpec → ProvAcc → St → Except AwsErr ProvAcc × St
  | [], acc, st => (.ok acc, st)
  | ispec :: rest, acc, st =>
      match create_ec2_instance env files now ispec st with
      | (.error e, st1) => (.error e, st1)
      | (.ok iid, st1) =>
          match create_and_attach_volumes env iid ispec st1 with
          | (.error e, st2) => (.error e, st2)
          | (.ok vids, st2) =>
              match create_idle_shutdown_alarm env iid ispec st2 with
              | (.error e, st3) => (.error e, st3)
              | (.ok aname, st3) =>
                  provision_loop env files now rest
                    { instances := acc.instances ++ [iid],
                      volumes := acc.volumes ++ vids,
                      alarms := acc.alarms ++ aname.toList } st3

/-- Embeds `provision_resources` (source lines 835-896).  The idempotency
gate: any existing instance short-circuits creation, fetches connection
info for the existing ids, and then reads `existing["alarms"]` — a key
`_get_existing_resources` never sets, so this path raises `KeyError`.
Otherwise the creation loop runs under the handler that rolls back the
accumulated manifest and re-raises; an exception out of the rollback itself
replaces the original one. -/
def provision_resources (env : Env) (files : String → Option String)
    (now : String) (s : SpecFile) (st : St) : Except AwsErr ProvisionResult × St :=
  match get_existing_resources env s st with
  | (.error e, st1) => (.error e, st1)
  | (.ok existing, st0) =>
      if existing.instances = [] then
        match s.instances with
        | none => (.error (.keyErr "instances"), st0)
        | some insts =>
            match provision_loop env files now insts ⟨[], [], []⟩ st0 with
            | (.error e, stF) =>
                (match rollback_resources env stF with
                 | (.ok _, stR) => (.error e, stR)
                 | (.error e2, stR) => (.error e2, stR))
            | (.ok acc, st1) =>
                match get_instance_connection_info env acc.instances st1 with
                | (.error e, stF) =>
                    (match rollback_resources env stF with
                     | (.ok _, stR) => (.error e, stR)
                     | (.error e2, stR) => (.error e2, stR))
                | (.ok conn, st2) => (.ok (.created acc conn), st2)
      else
        match get_instance_connection_info env
            (existing.instances.map (fun e => e.id)) st0 with
        | (.error e, st1) => (.error e, st1)
        | (.ok conn, st1) =>
            match existing.alarms with
            | none => (.error (.keyErr "alarms"), st1)
            | some al => (.ok (.existingRes existing.instances existing.volumes al conn), st1)

/-! ## Concrete environments and states for witnesses -/

/-- Empty file system oracle. -/
def files0 : String → Option String := fun _ => none

/-- Fresh manager state: empty manifest, no live alarms, empty trace. -/
def st0 : St := ⟨Manifest.empty, [], []⟩

/-- A benign cloud: no pre-existing instances, every operation succeeds,
every wait converges. -/
def env0 : Env :=
  { region := "us-east-1",
    describeByName := fun _ => .ok [],
    runInstances := fun _ => .ok "i-0",
    waitRunning := fun _ => none,
    instanceAZ := fun _ => .ok "us-east-1a",
    createVolume := fun _ => .ok "vol-0",
    waitVolume := fun _ => none,
    attach := fun _ _ _ => .ok (),
    describeAlarmErr := fun _ => none,
    putAlarm := fun _ => .ok (),
    deleteAlarmsE := fun _ => .ok (),
    describeVolume := fun _ => .ok ⟨"available", []⟩,
    detach := fun _ => .ok (),
    deleteVol := fun _ => .ok (),
    terminate := fun _ => .ok (),
    connInfo := fun ids => .ok (ids.map (fun i => ⟨i, [("Name", "web")], some "1.2.3.4", "running"⟩)) }

/-- A cloud in which every declared name already has a live running match. -/
def env1 : Env :=
  { env0 with describeByName := fun nm => .ok [⟨"i-0123", nm, "running"⟩] }

/-- Specification declaring the single instance `web`. -/
def specIdem : SpecFile := ⟨some [vInstW], none⟩

/-- `web` with an idle-shutdown policy (threshold 5, 15 minutes, stop). -/
def idleInstW : InstanceSpec :=
  { vInstW with idle_shutdown := some ⟨some 5, some 15, some "stop"⟩ }

/-! ## Claim C1: the idempotency gate -/

/-- C1 (code bug): with one declared instance whose name has a live running
match, `provision_resources` issues no creation call and leaves the
manifest empty, but instead of returning the existing resources plus
connection info it raises `KeyError("alarms")`: the idempotent return reads
`existing["alarms"]` from a dict `_get_existing_resources` builds with only
`instances` and `volumes` keys (source lines 289 and 857-862). -/
theorem provision_existing_key_error :
    (provision_resources env1 files0 "2024-01-01T00:00:00" specIdem st0).1 =
      .error (.keyErr "alarms") ∧
    (provision_resources env1 files0 "2024-01-01T00:00:00" specIdem st0).2.log.countP
      Call.isCreation = 0 ∧
    (provision_resources env1 files0 "2024-01-01T00:00:00" specIdem st0).2.created =
      Manifest.empty ∧
    (provision_resources env1 files0 "2024-01-01T00:00:00" specIdem st0).2.log =
      [.describeInstancesByName "web", .describeConnInfo ["i-0123"]] := by
  refine ⟨rfl, rfl, rfl, rfl⟩

/-! ## Claim C9: alarm creation without a policy is a no-op -/

/-- C9: an instance declaration without an `idle_shutdown` key makes
`_create_idle_shutdown_alarm` return `None` with the state — manifest,
cloud alarms and call trace — unchanged. -/
theorem create_idle_shutdown_alarm_no_config (env : Env) (iid : String)
    (ispec : InstanceSpec) (st : St) (h : ispec.idle_shutdown = none) :
    create_idle_shutdown_alarm env iid ispec st = (.ok none, st) := by
  unfold create_idle_shutdown_alarm
  rw [h]

/-- Witness for C9 at a concrete instance declaration and state. -/
theorem create_idle_shutdown_alarm_no_config_witness :
    create_idle_shutdown_alarm env0 "i-1" vInstW st0 = (.ok none, st0) :=
  create_idle_shutdown_alarm_no_config env0 "i-1" vInstW st0 rfl

/-! ## Alarm call lemmas (shared by the alarm claims) -/

/-- One alarm-creation call when the derived name is absent: the describe
and the put are issued with the derived parameters; on success the name is
appended to the manifest and becomes visible to later describes. -/
theorem alarm_call_miss (env : Env) (iid nm : String) (cfg : IdleCfg)
    (ispec : InstanceSpec) (st : St) (thr : Rat) (em : Int)
    (his : ispec.idle_shutdown = some cfg) (hnm : ispec.name = some nm)
    (hthr : cfg.cpu_threshold = some thr) (hem : cfg.evaluation_minutes = some em)
    (hdesc : env.describeAlarmErr (alarmNameOf nm iid) = none)
    (hcont : st.worldAlarms.contains (alarmNameOf nm iid) = false)
    (hput : env.putAlarm (alarmParamsOf env.region nm iid (cfg.action.getD "stop") thr em) =
      .ok ()) :
    create_idle_shutdown_alarm env iid ispec st =
      (.ok (some (alarmNameOf nm iid)),
        { st with
          log := st.log ++ [.describeAlarms [alarmNameOf nm iid],
            .putMetricAlarm (alarmParamsOf env.region nm iid (cfg.action.getD "stop") thr em)],
          worldAlarms := st.worldAlarms ++ [alarmNameOf nm iid],
          created := { st.created with
            alarms := st.created.alarms ++ [alarmNameOf nm iid] } }) := by
  simp only [create_idle_shutdown_alarm, his, hnm, hthr, hem, logC, hdesc, hcont]
  rw [hput]
  simp

/-- One alarm-creation call when the derived name is already live and the
describe succeeds: only the describe is issued, the existing name is
returned, and nothing else — manifest included — changes. -/
theorem alarm_call_hit (env : Env) (iid nm : String) (cfg : IdleCfg)
    (ispec : InstanceSpec) (st : St) (thr : Rat) (em : Int)
    (his : ispec.idle_shutdown = some cfg) (hnm : ispec.name = some nm)
    (hthr : cfg.cpu_threshold = some thr) (hem : cfg.evaluation_minutes = some em)
    (hdesc : env.describeAlarmErr (alarmNameOf nm iid) = none)
    (hcont : st.worldAlarms.contains (alarmNameOf nm iid) = true) :
    create_idle_shutdown_alarm env iid ispec st =
      (.ok (some (alarmNameOf nm iid)), logC (.describeAlarms [alarmNameOf nm iid]) st) := by
  simp only [create_idle_shutdown_alarm, his, hnm, hthr, hem, logC, hdesc, hcont]
  simp [logC]

/-- The issued trace of a miss-case alarm creation, independent of whether
the put succeeds. -/
theorem alarm_call_miss_log (env : Env) (iid nm : String) (cfg : IdleCfg)
    (ispec : InstanceSpec) (st : St) (thr : Rat) (em : Int)
    (his : ispec.idle_shutdown = some cfg) (hnm : ispec.name = some nm)
    (hthr : cfg.cpu_threshold = some thr) (hem : cfg.evaluation_minutes = some em)
    (hdesc : env.describeAlarmErr (alarmNameOf nm iid) = none)
    (hcont : st.worldAlarms.contains (alarmNameOf nm iid) = false) :
    (create_idle_shutdown_alarm env iid ispec st).2.log =
      st.log ++ [.describeAlarms [alarmNameOf nm iid],
        .putMetricAlarm (alarmParamsOf env.region nm iid (cfg.action.getD "stop") thr em)] := by
  simp only [create_idle_shutdown_alarm, his, hnm, hthr, hem, logC, hdesc, hcont]
  cases h : env.putAlarm (alarmParamsOf env.region nm iid (cfg.action.getD "stop") thr em) <;>
    simp [h]

/-! ## Claim C6: alarm parameter arithmetic -/

/-- C6: with a positive integer `evaluation_minutes`, the issued
`put_metric_alarm` call carries `EvaluationPeriods` equal to the floor
(integer) division of the evaluation minutes by 5, a fixed 300-second
metric period, comparison `LessThanThreshold`, and missing-data treatment
`notBreaching`. -/
theorem idle_alarm_evaluation_periods (env : Env) (iid nm : String) (cfg : IdleCfg)
    (ispec : InstanceSpec) (st : St) (thr : Rat) (em : Int)
    (his : ispec.idle_shutdown = some cfg) (hnm : ispec.name = some nm)
    (hthr : cfg.cpu_threshold = some thr) (hem : cfg.evaluation_minutes = some em)
    (hpos : 0 < em)
    (hdesc : env.describeAlarmErr (alarmNameOf nm iid) = none)
    (hcont : st.worldAlarms.contains (alarmNameOf nm iid) = false) :
    (create_idle_shutdown_alarm env iid ispec st).2.log =
      st.log ++ [.describeAlarms [alarmNameOf nm iid],
        .putMetricAlarm (alarmParamsOf env.region nm iid (cfg.action.getD "stop") thr em)] ∧
    (alarmParamsOf env.region nm iid (cfg.action.getD "stop") thr em).evaluationPeriods =
      em.fdiv 5 ∧
    (alarmParamsOf env.region nm iid (cfg.action.getD "stop") thr em).period = 300 ∧
    (alarmParamsOf env.region nm iid (cfg.action.getD "stop") thr em).comparisonOperator =
      "LessThanThreshold" ∧
    (alarmParamsOf env.region nm iid (cfg.action.getD "stop") thr em).treatMissingData =
      "notBreaching" :=
  ⟨alarm_call_miss_log env iid nm cfg ispec st thr em his hnm hthr hem hdesc hcont,
    rfl, rfl, rfl, rfl⟩

/-- Witness for C6: evaluated at `evaluation_minutes = 15` (three periods)
and, separately in arithmetic, 7 minutes give a single period. -/
theorem idle_alarm_evaluation_periods_witness :
    ((create_idle_shutdown_alarm env0 "i-1" idleInstW st0).2.log =
      st0.log ++ [.describeAlarms [alarmNameOf "web" "i-1"],
        .putMetricAlarm (alarmParamsOf env0.region "web" "i-1" "stop" 5 15)] ∧
      (alarmParamsOf env0.region "web" "i-1" "stop" 5 15).evaluationPeriods = (15 : Int).fdiv 5 ∧
      (alarmParamsOf env0.region "web" "i-1" "stop" 5 15).period = 300 ∧
      (alarmParamsOf env0.region "web" "i-1" "stop" 5 15).comparisonOperator =
        "LessThanThreshold" ∧
      (alarmParamsOf env0.region "web" "i-1" "stop" 5 15).treatMissingData = "notBreaching") ∧
    (15 : Int).fdiv 5 = 3 ∧ (7 : Int).fdiv 5 = 1 := by
  refine ⟨?_, by decide, by decide⟩
  exact idle_alarm_evaluation_periods env0 "i-1" "web" ⟨some 5, some 15, some "stop"⟩
    idleInstW st0 5 15 rfl rfl rfl rfl (by decide) rfl rfl

/-! ## Claim C7: alarm idempotency -/

/-- C7: when the derived alarm name already exists the call issues no
`put_metric_alarm`, returns the existing name and leaves the whole state —
manifest included — unchanged apart from the describe in the trace; and two
consecutive calls with the same instance id and configuration issue exactly
one `put_metric_alarm` and append exactly one manifest entry, the second
call returning the name without touching the manifest. -/
theorem alarm_creation_idempotent :
    (∀ (env : Env) (iid nm : String) (cfg : IdleCfg) (ispec : InstanceSpec) (st : St)
        (thr : Rat) (em : Int),
      ispec.idle_shutdown = some cfg → ispec.name = some nm →
      cfg.cpu_threshold = some thr → cfg.evaluation_minutes = some em →
      env.describeAlarmErr (alarmNameOf nm iid) = none →
      st.worldAlarms.contains (alarmNameOf nm iid) = true →
      create_idle_shutdown_alarm env iid ispec st =
        (.ok (some (alarmNameOf nm iid)), logC (.describeAlarms [alarmNameOf nm iid]) st)) ∧
    (∀ (env : Env) (iid nm : String) (cfg : IdleCfg) (ispec : InstanceSpec) (st : St)
        (thr : Rat) (em : Int),
      ispec.idle_shutdown = some cfg → ispec.name = some nm →
      cfg.cpu_threshold = some thr → cfg.evaluation_minutes = some em →
      env.describeAlarmErr (alarmNameOf nm iid) = none →
      st.worldAlarms.contains (alarmNameOf nm iid) = false →
      env.putAlarm (alarmParamsOf env.region nm iid (cfg.action.getD "stop") thr em) = .ok () →
      countPut (create_idle_shutdown_alarm env iid ispec
          (create_idle_shutdown_alarm env iid ispec st).2).2.log = countPut st.log + 1 ∧
      (create_idle_shutdown_alarm env iid ispec
          (create_idle_shutdown_alarm env iid ispec st).2).2.created.alarms =
        st.created.alarms ++ [alarmNameOf nm iid] ∧
      (create_idle_shutdown_alarm env iid ispec
          (create_idle_shutdown_alarm env iid ispec st).2).1 =
        .ok (some (alarmNameOf nm iid)) ∧
      (create_idle_shutdown_alarm env iid ispec
          (create_idle_shutdown_alarm env iid ispec st).2).2.created =
        (create_idle_shutdown_alarm env iid ispec st).2.created) := by
  constructor
  · intro env iid nm cfg ispec st thr em his hnm hthr hem hdesc hcont
    exact alarm_call_hit env iid nm cfg ispec st thr em his hnm hthr hem hdesc hcont
  · intro env iid nm cfg ispec st thr em his hnm hthr hem hdesc hcont hput
    rw [alarm_call_miss env iid nm cfg ispec st thr em his hnm hthr hem hdesc hcont hput]
    have hcont2 : (st.worldAlarms ++ [alarmNameOf nm iid]).contains (alarmNameOf nm iid)
        = true := by simp
    rw [alarm_call_hit env iid nm cfg ispec _ thr em his hnm hthr hem hdesc hcont2]
    refine ⟨?_, rfl, rfl, rfl⟩
    simp [logC, countPut, List.countP_append, List.countP_cons]

/-- Witness for C7: both conjuncts evaluated on the benign cloud, one live
case via a state already holding the derived alarm name. -/
theorem alarm_creation_idempotent_witness :
    (create_idle_shutdown_alarm env0 "i-1" idleInstW
        ⟨Manifest.empty, [alarmNameOf "web" "i-1"], []⟩ =
      (.ok (some (alarmNameOf "web" "i-1")),
        logC (.describeAlarms [alarmNameOf "web" "i-1"])
          ⟨Manifest.empty, [alarmNameOf "web" "i-1"], []⟩)) ∧
    countPut (create_idle_shutdown_alarm env0 "i-1" idleInstW
        (create_idle_shutdown_alarm env0 "i-1" idleInstW st0).2).2.log =
      countPut st0.log + 1 := by
  constructor
  · exact alarm_creation_idempotent.1 env0 "i-1" "web" ⟨some 5, some 15, some "stop"⟩
      idleInstW ⟨Manifest.empty, [alarmNameOf "web" "i-1"], []⟩ 5 15
      rfl rfl rfl rfl rfl (by decide)
  · exact (alarm_creation_idempotent.2 env0 "i-1" "web" ⟨some 5, some 15, some "stop"⟩
      idleInstW st0 5 15 rfl rfl rfl rfl rfl rfl rfl).1

/-! ## Claim C2: manifest append before wait -/

@[simp] theorem countCV_append (l1 l2 : List Call) :
    countCV (l1 ++ l2) = countCV l1 + countCV l2 := List.countP_append _ _ _

@[simp] theorem countCV_nil : countCV [] = 0 := rfl

@[simp] theorem countCV_cons_create (p : VolParams) (l : List Call) :
    countCV (Call.createVolume p :: l) = countCV l + 1 := by
  simp [countCV, List.countP_cons]

@[simp] theorem countCV_cons_wait (i : String) (l : List Call) :
    countCV (Call.waitVolumeAvailable i :: l) = countCV l := by
  simp [countCV, List.countP_cons]

@[simp] theorem countCV_cons_attach (a b c : String) (l : List Call) :
    countCV (Call.attachVolume a b c :: l) = countCV l := by
  simp [countCV, List.countP_cons]

@[simp] theorem countCV_cons_describeAZ (i : String) (l : List Call) :
    countCV (Call.describeInstanceAZ i :: l) = countCV l := by
  simp [countCV, List.countP_cons]

@[simp] theorem countWV_append (l1 l2 : List Call) :
    countWV (l1 ++ l2) = countWV l1 + countWV l2 := List.countP_append _ _ _

@[simp] theorem countWV_nil : countWV [] = 0 := rfl

@[simp] theorem countWV_cons_create (p : VolParams) (l : List Call) :
    countWV (Call.createVolume p :: l) = countWV l := by
  simp [countWV, List.countP_cons]

@[simp] theorem countWV_cons_wait (i : String) (l : List Call) :
    countWV (Call.waitVolumeAvailable i :: l) = countWV l + 1 := by
  simp [countWV, List.countP_cons]

@[simp] theorem countPut_append (l1 l2 : List Call) :
    countPut (l1 ++ l2) = countPut l1 + countPut l2 := List.countP_append _ _ _

@[simp] theorem countPut_nil : countPut [] = 0 := rfl

@[simp] theorem countPut_cons_describe (ns : List String) (l : List Call) :
    countPut (Call.describeAlarms ns :: l) = countPut l := by
  simp [countPut, List.countP_cons]

@[simp] theorem countPut_cons_put (p : AlarmParams) (l : List Call) :
    countPut (Call.putMetricAlarm p :: l) = countPut l + 1 := by
  simp [countPut, List.countP_cons]

/-- The volume loop only appends to the manifest's volume list and only
extends the trace. -/
theorem vols_loop_mono (env : Env) (iid : String) (ispec : InstanceSpec) (az : String) :
    ∀ (vs : List VolumeSpec) (acc : List String) (st : St) (r : Except AwsErr (List String))
      (st1 : St), vols_loop env iid ispec az vs acc st = (r, st1) →
      (∀ x, x ∈ st.created.volumes → x ∈ st1.created.volumes) ∧
        countCV st.log ≤ countCV st1.log := by
  intro vs
  induction vs with
  | nil =>
      intro acc st r st1 h
      rw [vols_loop] at h
      cases h
      exact ⟨fun x hx => hx, Nat.le_refl _⟩
  | cons v rest ih =>
      intro acc st r st1 h
      rw [vols_loop] at h
      simp only [logC] at h
      split at h
      · cases h; exact ⟨fun x hx => hx, Nat.le_refl _⟩
      · split at h
        · cases h; exact ⟨fun x hx => hx, Nat.le_refl _⟩
        · split at h
          · cases h
            exact ⟨fun x hx => hx, by simp⟩
          · split at h
            · cases h
              exact ⟨fun x hx => by simp; exact Or.inl hx, by simp⟩
            · split at h
              · cases h
                exact ⟨fun x hx => by simp; exact Or.inl hx, by simp⟩
              · have h2 := ih _ _ _ _ h
                refine ⟨fun x hx => h2.1 x (by simp; exact Or.inl hx), ?_⟩
                refine Nat.le_trans ?_ h2.2
                simp

/-- Every volume id handed out by the create-volume oracle during a run of
the volume loop ends up in the manifest, whatever the loop's outcome: the
id is appended immediately on creation, before the availability wait and
the attach. -/
theorem vols_loop_created (env : Env) (iid : String) (ispec : InstanceSpec) (az : String) :
    ∀ (vs : List VolumeSpec) (acc : List String) (st : St) (r : Except AwsErr (List String))
      (st1 : St), vols_loop env iid ispec az vs acc st = (r, st1) →
      ∀ (k : Nat) (vid : String), countCV st.log ≤ k → k < countCV st1.log →
        env.createVolume k = .ok vid → vid ∈ st1.created.volumes := by
  intro vs
  induction vs with
  | nil =>
      intro acc st r st1 h k vid hk1 hk2 hv
      rw [vols_loop] at h
      cases h
      omega
  | cons v rest ih =>
      intro acc st r st1 h k vid hk1 hk2 hv
      rw [vols_loop] at h
      simp only [logC] at h
      split at h
      · cases h; omega
      · split at h
        · cases h; omega
        · split at h
          · rename_i m hcv
            cases h
            simp at hk2
            have hk : k = countCV st.log := by omega
            rw [hk] at hv
            rw [hcv] at hv
            exact absurd hv (by simp)
          · rename_i vid0 hcv
            split at h
            · rename_i m hwv
              cases h
              simp at hk2
              have hk : k = countCV st.log := by omega
              rw [hk] at hv
              rw [hcv] at hv
              have hvv : vid = vid0 := by
                injection hv with h2
                exact h2.symm
              subst hvv
              simp
            · split at h
              · rename_i m hat
                cases h
                simp at hk2
                have hk : k = countCV st.log := by omega
                rw [hk] at hv
                rw [hcv] at hv
                have hvv : vid = vid0 := by
                  injection hv with h2
                  exact h2.symm
                subst hvv
                simp
              · rename_i hat
                by_cases hkc : k = countCV st.log
                · rw [hkc] at hv
                  rw [hcv] at hv
                  have hvv : vid = vid0 := by
                    injection hv with h2
                    exact h2.symm
                  subst hvv
                  have hmono := (vols_loop_mono env iid ispec az rest _ _ _ _ h).1
                  exact hmono vid (by simp)
                · refine ih _ _ _ _ h k vid ?_ hk2 hv
                  simp
                  omega

/-- One instance creation where the running wait times out: the call fails
with the waiter's error, yet the instance id is already in the manifest. -/
theorem create_instance_append_before_wait (env : Env) (files : String → Option String)
    (now : String) (ispec : InstanceSpec) (st : St) (p : RunParams) (iid m : String)
    (hp : build_run_params files now ispec = .ok p)
    (hrun : env.runInstances p = .ok iid)
    (hwait : env.waitRunning iid = some m) :
    create_ec2_instance env files now ispec st =
      (.error (.waiterErr m),
        { st with
          created := { st.created with instances := st.created.instances ++ [iid] },
          log := st.log ++ [.runInstances p, .waitInstanceRunning iid] }) := by
  simp only [create_ec2_instance, hp, hrun, hwait, logC]
  simp

/-- C2: append-before-wait.  First: if `run_instances` returns an id and the
running-state wait then fails, `_create_ec2_instance` raises but the id is
already in the manifest.  Second: every volume id returned by a
`create_volume` call issued during `_create_and_attach_volumes` is in the
manifest of the final state whatever the outcome — in particular when the
availability wait that follows its creation fails. -/
theorem manifest_append_before_wait :
    (∀ (env : Env) (files : String → Option String) (now : String) (ispec : InstanceSpec)
        (st : St) (p : RunParams) (iid m : String),
      build_run_params files now ispec = .ok p →
      env.runInstances p = .ok iid →
      env.waitRunning iid = some m →
      (create_ec2_instance env files now ispec st).1 = .error (.waiterErr m) ∧
      (create_ec2_instance env files now ispec st).2.created.instances =
        st.created.instances ++ [iid]) ∧
    (∀ (env : Env) (iid : String) (ispec : InstanceSpec) (st : St)
        (r : Except AwsErr (List String)) (st1 : St),
      create_and_attach_volumes env iid ispec st = (r, st1) →
      ∀ (k : Nat) (vid : String), countCV st.log ≤ k → k < countCV st1.log →
        env.createVolume k = .ok vid → vid ∈ st1.created.volumes) := by
  constructor
  · intro env files now ispec st p iid m hp hrun hwait
    rw [create_instance_append_before_wait env files now ispec st p iid m hp hrun hwait]
    exact ⟨rfl, rfl⟩
  · intro env iid ispec st r st1 h k vid hk1 hk2 hv
    rw [create_and_attach_volumes] at h
    split at h
    · cases h; omega
    · split at h
      · cases h
        simp [logC] at hk2
        omega
      · rename_i az haz
        refine vols_loop_created env iid ispec az _ _ _ _ _ h k vid ?_ hk2 hv
        simpa [logC] using hk1

/-- A cloud whose instance-running wait always times out. -/
def envW1 : Env := { env0 with waitRunning := fun _ => some "timeout" }

/-- A cloud whose volume-available wait always times out. -/
def envW2 : Env := { env0 with waitVolume := fun _ => some "volume timeout" }

/-- `web` with one 10 GiB volume. -/
def volInstW : InstanceSpec :=
  { vInstW with volumes := some [{ VolumeSpec.default with size := some 10 }] }

/-- Witness for C2: a timed-out running wait leaves `i-0` in the manifest;
a timed-out availability wait leaves `vol-0` in the manifest. -/
theorem manifest_append_before_wait_witness :
    ((create_ec2_instance envW1 files0 "T" vInstW st0).1 =
        .error (.waiterErr "timeout") ∧
      (create_ec2_instance envW1 files0 "T" vInstW st0).2.created.instances =
        [] ++ ["i-0"]) ∧
    "vol-0" ∈ (create_and_attach_volumes envW2 "i-1" volInstW st0).2.created.volumes := by
  constructor
  · obtain ⟨p, hp⟩ : ∃ p, build_run_params files0 "T" vInstW = .ok p := ⟨_, rfl⟩
    exact manifest_append_before_wait.1 envW1 files0 "T" vInstW st0 p "i-0" "timeout"
      hp rfl rfl
  · exact manifest_append_before_wait.2 envW2 "i-1" volInstW st0 _ _ rfl 0 "vol-0"
      (by decide) (by decide) rfl

/-! ## Claim C3: rollback behaviour -/

/-- The alarm phase of rollback issues one `delete_alarms` per manifest
alarm, in order, swallowing every error, and touches nothing else. -/
theorem rollback_alarms_spec (env : Env) :
    ∀ (as : List String) (st : St), rollback_alarms env as st =
      { st with log := st.log ++ as.map (fun a => Call.deleteAlarms [a]) } := by
  intro as
  induction as with
  | nil => intro st; simp [rollback_alarms]
  | cons a rest ih =>
      intro st
      rw [rollback_alarms]
      split <;> rw [ih] <;> simp [logC, List.append_assoc]

/-- The detach loop under converging waits: never aborts, only issues
volume-rollback calls, never touches the manifest. -/
theorem rollback_detach_spec (env : Env) (hw : ∀ k, env.waitVolume k = none)
    (vid : String) :
    ∀ (atts : List String) (st : St),
      ((rollback_detach env vid atts st).1 = .proceed ∨
        (rollback_detach env vid atts st).1 = .skipVolume) ∧
      (rollback_detach env vid atts st).2.created = st.created ∧
      ∃ l, (rollback_detach env vid atts st).2.log = st.log ++ l ∧
        ∀ c ∈ l, c.isVolumeRollback = true := by
  intro atts
  induction atts with
  | nil =>
      intro st
      refine ⟨Or.inl rfl, rfl, [], by simp [rollback_detach], ?_⟩
      intro c hc
      cases hc
  | cons a rest ih =>
      intro st
      rw [rollback_detach]
      cases hd : env.detach vid with
      | error m =>
          refine ⟨Or.inr rfl, rfl, [Call.detachVolume vid], by simp [logC], ?_⟩
          intro c hc
          simp at hc
          subst hc
          rfl
      | ok u =>
          rw [hw]
          obtain ⟨h1, h2, l, h3, h4⟩ := ih
            (logC (Call.waitVolumeAvailable vid) (logC (Call.detachVolume vid) st))
          refine ⟨h1, by rw [h2]; rfl, [Call.detachVolume vid, Call.waitVolumeAvailable vid] ++ l,
            ?_, ?_⟩
          · rw [h3]; simp [logC, List.append_assoc]
          · intro c hc
            simp at hc
            rcases hc with hc | hc | hc
            · subst hc; rfl
            · subst hc; rfl
            · exact h4 c hc

/-- The volume phase of rollback under converging waits: returns cleanly,
does not touch the manifest, issues only volume-rollback calls, and
attempts (at least a describe of) every manifest volume. -/
theorem rollback_volumes_spec (env : Env) (hw : ∀ k, env.waitVolume k = none) :
    ∀ (vols : List String) (st : St),
      (rollback_volumes env vols st).1 = .ok () ∧
      (rollback_volumes env vols st).2.created = st.created ∧
      ∃ l, (rollback_volumes env vols st).2.log = st.log ++ l ∧
        (∀ c ∈ l, c.isVolumeRollback = true) ∧
        (∀ vid ∈ vols, Call.describeVolumes vid ∈ l) := by
  intro vols
  induction vols with
  | nil =>
      intro st
      refine ⟨rfl, rfl, [], by simp [rollback_volumes], ?_, ?_⟩
      · intro c hc; cases hc
      · intro vid hv; cases hv
  | cons vid rest ih =>
      intro st
      rw [rollback_volumes]
      split
      · -- describe failed with a ClientError: skip to the next volume
        obtain ⟨h1, h2, l, h3, h4, h5⟩ := ih (logC (Call.describeVolumes vid) st)
        refine ⟨h1, by rw [h2]; rfl, Call.describeVolumes vid :: l, ?_, ?_, ?_⟩
        · rw [h3]; simp [logC]
        · intro c hc
          rcases List.mem_cons.mp hc with hc | hc
          · subst hc; rfl
          · exact h4 c hc
        · intro v hv
          rcases List.mem_cons.mp hv with hv | hv
          · subst hv; exact List.mem_cons_self _ _
          · exact List.mem_cons_of_mem _ (h5 v hv)
      · -- describe succeeded
        rename_i info hd
        split
        · -- in use: detach loop, then the detach-result match
          rename_i hs
          have hspec := rollback_detach_spec env hw vid info.attachments
            (logC (Call.describeVolumes vid) st)
          split
          · -- abort: impossible under converging waits
            rename_i e st2 hp
            rw [hp] at hspec
            rcases hspec.1 with hstep | hstep <;> exact absurd hstep (by simp)
          · -- skipVolume
            rename_i st2 hp
            rw [hp] at hspec
            obtain ⟨hstep, hc2, ld, hld, hldall⟩ := hspec
            obtain ⟨h1, h2, l, h3, h4, h5⟩ := ih st2
            refine ⟨h1, by rw [h2, hc2]; rfl, Call.describeVolumes vid :: (ld ++ l), ?_, ?_, ?_⟩
            · rw [h3, hld]; simp [logC, List.append_assoc]
            · intro c hc
              rcases List.mem_cons.mp hc with hc | hc
              · subst hc; rfl
              · rcases List.mem_append.mp hc with hc | hc
                · exact hldall c hc
                · exact h4 c hc
            · intro v hv
              rcases List.mem_cons.mp hv with hv | hv
              · subst hv; exact List.mem_cons_self _ _
              · exact List.mem_cons_of_mem _ (List.mem_append.mpr (Or.inr (h5 v hv)))
          · -- proceed: delete, then next volume
            rename_i st2 hp
            rw [hp] at hspec
            obtain ⟨hstep, hc2, ld, hld, hldall⟩ := hspec
            obtain ⟨h1, h2, l, h3, h4, h5⟩ := ih (rollback_delete_one env vid st2)
            have hdel2 : (rollback_delete_one env vid st2).created = st2.created := by
              unfold rollback_delete_one
              split <;> rfl
            have hdel3 : (rollback_delete_one env vid st2).log =
                st2.log ++ [Call.deleteVolume vid] := by
              unfold rollback_delete_one
              split <;> rfl
            refine ⟨h1, by rw [h2, hdel2, hc2]; rfl,
              Call.describeVolumes vid :: (ld ++ [Call.deleteVolume vid] ++ l), ?_, ?_, ?_⟩
            · rw [h3, hdel3, hld]; simp [logC, List.append_assoc]
            · intro c hc
              rcases List.mem_cons.mp hc with hc | hc
              · subst hc; rfl
              · rcases List.mem_append.mp hc with hc | hc
                · rcases List.mem_append.mp hc with hc | hc
                  · exact hldall c hc
                  · rw [List.mem_singleton.mp hc]; rfl
                · exact h4 c hc
            · intro v hv
              rcases List.mem_cons.mp hv with hv | hv
              · subst hv; exact List.mem_cons_self _ _
              · exact List.mem_cons_of_mem _ (List.mem_append.mpr (Or.inr (h5 v hv)))
        · -- not in use: delete, then next volume
          rename_i hs
          obtain ⟨h1, h2, l, h3, h4, h5⟩ :=
            ih (rollback_delete_one env vid (logC (Call.describeVolumes vid) st))
          have hdel2 : ∀ s, (rollback_delete_one env vid s).created = s.created := by
            intro s; unfold rollback_delete_one; split <;> rfl
          have hdel3 : ∀ s, (rollback_delete_one env vid s).log =
              s.log ++ [Call.deleteVolume vid] := by
            intro s; unfold rollback_delete_one; split <;> rfl
          refine ⟨h1, by rw [h2, hdel2]; rfl,
            Call.describeVolumes vid :: ([Call.deleteVolume vid] ++ l), ?_, ?_, ?_⟩
          · rw [h3, hdel3]; simp [logC, List.append_assoc]
          · intro c hc
            rcases List.mem_cons.mp hc with hc | hc
            · subst hc; rfl
            · rcases List.mem_append.mp hc with hc | hc
              · rw [List.mem_singleton.mp hc]; rfl
              · exact h4 c hc
          · intro v hv
            rcases List.mem_cons.mp hv with hv | hv
            · subst hv; exact List.mem_cons_self _ _
            · exact List.mem_cons_of_mem _ (List.mem_append.mpr (Or.inr (h5 v hv)))

/-- C3 (amended): provided no volume-detach wait times out, rollback never
raises: it deletes alarms first (one `delete_alarms` per manifest alarm, in
order, errors swallowed), then processes every manifest volume
(describe, detach-if-in-use with wait, delete; each volume's `ClientError`
is isolated and the loop continues), then issues a single
`terminate_instances` for the manifest's instances with no wait.  Without
that proviso a detach-wait `WaiterError` escapes (see the counterexample). -/
theorem rollback_after_alarms_spec (env : Env) (hw : ∀ k, env.waitVolume k = none)
    (st1 : St) :
    (rollback_after_alarms env st1).1 = .ok () ∧
    ∃ lv, (rollback_after_alarms env st1).2.log =
        st1.log ++ lv ++ (if st1.created.instances = [] then []
          else [Call.terminateInstances st1.created.instances]) ∧
      (∀ c ∈ lv, c.isVolumeRollback = true) ∧
      (∀ vid ∈ st1.created.volumes, Call.describeVolumes vid ∈ lv) := by
  obtain ⟨h1, h2, lv, h3, h4, h5⟩ := rollback_volumes_spec env hw st1.created.volumes st1
  rcases hrv : rollback_volumes env st1.created.volumes st1 with ⟨r2, st2⟩
  rw [hrv] at h1 h2 h3
  have h1b : r2 = Except.ok () := h1
  subst h1b
  have h2b : st2.created = st1.created := h2
  have h3b : st2.log = st1.log ++ lv := h3
  have hred : rollback_after_alarms env st1 =
      (if st2.created.instances = [] then (Except.ok (), st2)
       else
        match env.terminate st2.created.instances with
        | .ok _ => (Except.ok (), logC (.terminateInstances st2.created.instances) st2)
        | .error _ => (Except.ok (), logC (.terminateInstances st2.created.instances) st2)) := by
    unfold rollback_after_alarms
    rw [hrv]
  rw [hred]
  by_cases hni : st2.created.instances = []
  · rw [if_pos hni]
    have hni2 : st1.created.instances = [] := by rw [← h2b]; exact hni
    refine ⟨rfl, lv, ?_, h4, h5⟩
    rw [hni2, h3b]
    simp
  · rw [if_neg hni]
    have hni2 : ¬ st1.created.instances = [] := by rw [← h2b]; exact hni
    have hterm : st2.created.instances = st1.created.instances := by rw [h2b]
    cases ht : env.terminate st2.created.instances <;>
      · refine ⟨rfl, lv, ?_, h4, h5⟩
        rw [if_neg hni2]
        simp [logC, h3b, hterm, List.append_assoc]

/-- C3 (amended, composed): under converging waits the whole
`rollback_resources` never raises and keeps the order alarms, volumes,
instances. -/
theorem rollback_never_raises_without_wait_timeout (env : Env) (st : St)
    (hw : ∀ k, env.waitVolume k = none) :
    (rollback_resources env st).1 = .ok () ∧
    ∃ lv, (rollback_resources env st).2.log =
        st.log ++ st.created.alarms.map (fun a => Call.deleteAlarms [a]) ++ lv ++
          (if st.created.instances = [] then []
           else [Call.terminateInstances st.created.instances]) ∧
      (∀ c ∈ lv, c.isVolumeRollback = true) ∧
      (∀ vid ∈ st.created.volumes, Call.describeVolumes vid ∈ lv) := by
  unfold rollback_resources
  rw [rollback_alarms_spec]
  obtain ⟨h1, lv, h3, h4, h5⟩ := rollback_after_alarms_spec env hw
    { st with log := st.log ++ st.created.alarms.map (fun a => Call.deleteAlarms [a]) }
  refine ⟨h1, lv, ?_, h4, h5⟩
  rw [h3]

/-- A cloud in which `vol-1` is in use and every volume wait times out. -/
def env3 : Env :=
  { env0 with
    describeVolume := fun vid =>
      if vid = "vol-1" then .ok ⟨"in-use", ["i-1"]⟩ else .ok ⟨"available", []⟩,
    waitVolume := fun _ => some "Waiter VolumeAvailable failed" }

/-- A manifest holding one instance and two volumes. -/
def st3 : St := ⟨⟨["i-1"], ["vol-1", "vol-2"], []⟩, [], []⟩

/-- C3 counterexample: with `vol-1` in use and its detach wait timing out,
`rollback_resources` raises the `WaiterError` to its caller (the per-volume
handler catches only `ClientError`), and the failure is not isolated: the
second volume is never deleted and the instance is never terminated. -/
theorem rollback_raises_on_detach_wait_timeout :
    (rollback_resources env3 st3).1 =
      .error (.waiterErr "Waiter VolumeAvailable failed") ∧
    Call.terminateInstances ["i-1"] ∉ (rollback_resources env3 st3).2.log ∧
    Call.deleteVolume "vol-2" ∉ (rollback_resources env3 st3).2.log := by
  refine ⟨rfl, by decide, by decide⟩

/-- A cloud in which every volume delete fails with a `ClientError`. -/
def envW3 : Env := { env0 with deleteVol := fun _ => .error "denied" }

/-- A manifest with one instance, two volumes and one alarm. -/
def st3b : St := ⟨⟨["i-1"], ["vol-1", "vol-2"], ["al-1"]⟩, [], []⟩

/-- Witness for C3 (amended): even with every volume delete failing, the
rollback completes, keeps the phase order and still terminates the
instance. -/
theorem rollback_never_raises_witness :
    (rollback_resources envW3 st3b).1 = .ok () ∧
    ∃ lv, (rollback_resources envW3 st3b).2.log =
        st3b.log ++ st3b.created.alarms.map (fun a => Call.deleteAlarms [a]) ++ lv ++
          (if st3b.created.instances = [] then []
           else [Call.terminateInstances st3b.created.instances]) ∧
      (∀ c ∈ lv, c.isVolumeRollback = true) ∧
      (∀ vid ∈ st3b.created.volumes, Call.describeVolumes vid ∈ lv) :=
  rollback_never_raises_without_wait_timeout envW3 st3b (fun _ => rfl)

/-! ## Claim C4: failure triggers rollback of the exact manifest -/

/-- A `terminate_instances` call. -/
def isTerminateCall : Call → Bool
  | .terminateInstances _ => true
  | _ => false

/-- A second declared instance whose creation will be made to fail. -/
def badInst : InstanceSpec :=
  { InstanceSpec.default with
      name := some "db", instance_type := some "t3.large", ami_id := some "ami-999" }

/-- Two declared instances: `web` (with one volume) then `db`. -/
def spec4 : SpecFile := ⟨some [volInstW, badInst], none⟩

/-- A cloud where creating `db` (image `ami-999`) fails with a
`ClientError` and everything else succeeds. -/
def env4ok : Env :=
  { env0 with
    runInstances := fun p => if p.imageId = "ami-999" then .error "boom2" else .ok "i-1",
    createVolume := fun _ => .ok "vol-1",
    describeVolume := fun _ => .ok ⟨"available", []⟩ }

/-- Like `env4ok`, but `vol-1` reports in use during rollback and every
volume wait after the first (creation-time) one times out. -/
def env4bad : Env :=
  { env4ok with
    waitVolume := fun k => if k = 0 then none else some "slow",
    describeVolume := fun _ => .ok ⟨"in-use", ["i-1"]⟩ }

/-- The state right after the idempotency probe of `spec4`. -/
def stProbe4 : St :=
  ⟨Manifest.empty, [], [.describeInstancesByName "web", .describeInstancesByName "db"]⟩

/-- C4 counterexample: creation of the second instance fails with
`ClientError "boom2"`, but during rollback the detach wait for `vol-1`
times out; the `WaiterError` escapes `rollback_resources` (see C3) and
`provision_resources` raises it instead of re-raising the original
creation error — "then re-raises the original exception" fails as
stated. -/
theorem provision_rollback_error_masks_original :
    (provision_loop env4bad files0 "T" [volInstW, badInst] ⟨[], [], []⟩ stProbe4).1 =
      .error (.clientErr "boom2") ∧
    (provision_resources env4bad files0 "T" spec4 st0).1 = .error (.waiterErr "slow") := by
  refine ⟨rfl, rfl⟩

/-- C4 (amended): whenever the creation loop fails, `provision_resources`
invokes rollback on exactly the loop's final state — the manifest
accumulated up to the failure — and re-raises the original exception
provided the rollback itself completes; if the rollback raises (a
detach-wait timeout), the rollback's error propagates instead.  In
particular, with the second of two declared instances failing, the
manifest handed to rollback holds exactly the first instance's id and
volume, and rollback issues exactly one terminate call, for that id. -/
theorem provision_rollback_exact_manifest :
    (∀ (env : Env) (files : String → Option String) (now : String) (s : SpecFile)
        (insts : List InstanceSpec) (existing : ExistingDict) (st st0a stF stR : St)
        (e : AwsErr) (rr : Except AwsErr Unit),
      get_existing_resources env s st = (.ok existing, st0a) →
      existing.instances = [] →
      s.instances = some insts →
      provision_loop env files now insts ⟨[], [], []⟩ st0a = (.error e, stF) →
      rollback_resources env stF = (rr, stR) →
      provision_resources env files now s st =
        ((match rr with
          | .ok _ => Except.error e
          | .error e2 => Except.error e2), stR)) ∧
    ((provision_resources env4ok files0 "T" spec4 st0).1 = .error (.clientErr "boom2") ∧
      (provision_loop env4ok files0 "T" [volInstW, badInst] ⟨[], [], []⟩ stProbe4).2.created =
        ⟨["i-1"], ["vol-1"], []⟩ ∧
      (provision_resources env4ok files0 "T" spec4 st0).2.log.countP isTerminateCall = 1 ∧
      Call.terminateInstances ["i-1"] ∈ (provision_resources env4ok files0 "T" spec4 st0).2.log) := by
  constructor
  · intro env files now s insts existing st st0a stF stR e rr hge hie hins hloop hrb
    unfold provision_resources
    rw [hge]
    simp only [hie]
    rw [hins]
    simp only [hloop, hrb]
    simp only [if_true]
    cases rr <;> rfl
  · refine ⟨rfl, rfl, rfl, by decide⟩

/-- Witness for C4 (amended): applied to the two-instance scenario where
rollback completes, recovering the original error. -/
theorem provision_rollback_exact_manifest_witness :
    (provision_resources env4ok files0 "T" spec4 st0).1 = .error (.clientErr "boom2") := by
  have h := provision_rollback_exact_manifest.1 env4ok files0 "T" spec4
    [volInstW, badInst] _ st0 _ _ _ _ _ rfl rfl rfl rfl rfl
  rw [h]

/-! ## Ordered occurrence of markers in the assembled script -/

/-- `SeqIn [m1, ..., mk] s`: the markers occur in `s` in this order, each
strictly after the end of the previous one. -/
def SeqIn : List String → String → Prop
  | [], _ => True
  | m :: ms, s => ∃ a b, s = a ++ m ++ b ∧ SeqIn ms b

theorem str_ext {s t : String} (h : s.data = t.data) : s = t := by
  cases s with
  | mk d1 =>
      cases t with
      | mk d2 =>
          have h2 : d1 = d2 := h
          rw [h2]

theorem str_ne_empty_of_append (a b : String) (h : a ≠ "") : a ++ b ≠ "" := by
  intro hx
  apply h
  apply str_ext
  have h1 := congrArg String.data hx
  rw [String.data_append] at h1
  have h2 := List.append_eq_nil.mp (by simpa using h1)
  simp [h2.1]

theorem seqIn_nil (s : String) : SeqIn [] s := trivial

/-- A prefix chunk without markers can be skipped. -/
theorem seqIn_skip (x : String) {L : List String} {s : String} (h : SeqIn L s) :
    SeqIn L (x ++ s) := by
  cases L with
  | nil => trivial
  | cons m ms =>
      obtain ⟨a, b, hs, h2⟩ := h
      exact ⟨x ++ a, b, by rw [hs]; simp [String.append_assoc], h2⟩

/-- A marker found inside the current chunk. -/
theorem seqIn_chunk {m chunk : String} {L : List String} (pre post : String)
    (hck : chunk = pre ++ m ++ post) {rest : String} (h : SeqIn L (post ++ rest)) :
    SeqIn (m :: L) (chunk ++ rest) :=
  ⟨pre, post ++ rest, by rw [hck]; simp [String.append_assoc], h⟩

/-- A chunk that is the marker itself. -/
theorem seqIn_chunk_self (m : String) {L : List String} {rest : String}
    (h : SeqIn L rest) : SeqIn (m :: L) (m ++ rest) :=
  ⟨"", rest, by simp, h⟩

theorem joinNL_cons_ne (x : String) (l : List String) (h : l ≠ []) :
    joinNL (x :: l) = x ++ ("\n" ++ joinNL l) := by
  cases l with
  | nil => exact absurd rfl h
  | cons y rest => rw [joinNL]; simp [String.append_assoc]

theorem joinNL_append_ne (l1 l2 : List String) (h1 : l1 ≠ []) (h2 : l2 ≠ []) :
    joinNL (l1 ++ l2) = joinNL l1 ++ ("\n" ++ joinNL l2) := by
  induction l1 with
  | nil => exact absurd rfl h1
  | cons x rest ih =>
      cases hr : rest with
      | nil =>
          simp only [List.cons_append, List.nil_append]
          rw [joinNL_cons_ne x l2 h2]
          rfl
      | cons y rest2 =>
          subst hr
          have hne : y :: rest2 ≠ [] := by simp
          have hne2 : (y :: rest2) ++ l2 ≠ [] := by simp
          show joinNL (x :: ((y :: rest2) ++ l2)) =
            joinNL (x :: y :: rest2) ++ ("\n" ++ joinNL l2)
          rw [joinNL_cons_ne x ((y :: rest2) ++ l2) hne2, joinNL_cons_ne x (y :: rest2) hne]
          rw [ih hne]
          simp [String.append_assoc]

theorem shebang_merge (x : String) :
    "#!/bin/bash" ++ ("\n" ++ x) = "#!/bin/bash\n" ++ x := by
  rw [show ("#!/bin/bash\n" : String) = "#!/bin/bash" ++ "\n" from by decide]
  rw [String.append_assoc]

/-- Walking the header: the start banner line sits in `headerParts`, and
whatever follows the header continues after the banner's tail. -/
theorem seqIn_header (nm now T : String) {L : List String}
    (h : SeqIn L (" =====\"" ++ ("\n" ++ (joinNL ["echo \"Timestamp: $(date)\"",
      "echo \"Instance Name: " ++ nm ++ "\"",
      "echo \"==============================================\"", ""] ++ ("\n" ++ T))))) :
    SeqIn ("User Data Script Execution Started" :: L)
      (joinNL (headerParts nm now) ++ ("\n" ++ T)) := by
  simp only [headerParts]
  iterate 13 rw [joinNL_cons_ne _ _ (by simp)]
  simp only [String.append_assoc]
  iterate 26 apply seqIn_skip
  exact seqIn_chunk "echo \"===== " " =====\"" (by decide) h

theorem seqIn_final_core :
    SeqIn ["User Data Script Execution Completed Successfully"] (joinNL finalParts) := by
  unfold finalParts
  iterate 2 rw [joinNL_cons_ne _ _ (by simp)]
  iterate 2 apply seqIn_skip
  apply seqIn_chunk "echo \"" "\"" (by decide)
  trivial

theorem seqIn_final (X : List String) :
    SeqIn ["User Data Script Execution Completed Successfully"]
      (joinNL (X ++ finalParts)) := by
  cases X with
  | nil => simpa using seqIn_final_core
  | cons x xs =>
      rw [joinNL_append_ne _ _ (by simp) (by simp [finalParts])]
      apply seqIn_skip
      apply seqIn_skip
      exact seqIn_final_core

/-- Shape of every assembled user-data script: it begins with the shebang
line, and the start and completion banners occur in order around whatever
middle sections the declaration produces. -/
theorem script_shape (nm now : String) (mid : List String) :
    (∃ r, joinNL (headerParts nm now ++ (mid ++ finalParts)) = "#!/bin/bash\n" ++ r) ∧
    SeqIn ["User Data Script Execution Started",
      "User Data Script Execution Completed Successfully"]
      (joinNL (headerParts nm now ++ (mid ++ finalParts))) := by
  have hne2 : mid ++ finalParts ≠ [] := by cases mid <;> simp [finalParts]
  rw [joinNL_append_ne _ _ (by simp [headerParts]) hne2]
  constructor
  · simp only [headerParts]
    rw [joinNL_cons_ne _ _ (by simp)]
    simp only [String.append_assoc]
    rw [shebang_merge]
    exact ⟨_, rfl⟩
  · apply seqIn_header
    apply seqIn_skip
    apply seqIn_skip
    iterate 3 rw [joinNL_cons_ne _ _ (by simp)]
    rw [show joinNL [""] = "" from rfl]
    simp only [String.append_assoc]
    iterate 10 apply seqIn_skip
    exact seqIn_final mid

/-! ## Claim C10: the user-data script is never empty -/

/-- C10: for every instance declaration (name present, user-data source
resolvable), the prepared script starts with the shebang line, carries the
start and completion banners in order, is non-empty, and is therefore
always passed as the `UserData` parameter of the `run_instances` call. -/
theorem user_data_script_nonempty (files : String → Option String) (now : String)
    (ispec : InstanceSpec) (nm s : String)
    (hnm : ispec.name = some nm)
    (hok : prepare_user_data files now ispec = .ok s) :
    (∃ r, s = "#!/bin/bash\n" ++ r) ∧
    SeqIn ["User Data Script Execution Started",
      "User Data Script Execution Completed Successfully"] s ∧
    s ≠ "" ∧
    (∀ p, build_run_params files now ispec = .ok p → p.userData = some s) := by
  have hus : ∃ us, userSection files ispec.user_data = .ok us ∧
      s = joinNL (headerParts nm now ++
        ((mountSection ispec ++ us ++ verifySection ispec) ++ finalParts)) := by
    unfold prepare_user_data at hok
    rw [hnm] at hok
    cases husec : userSection files ispec.user_data with
    | error p => rw [husec] at hok; exact absurd hok (by simp)
    | ok us =>
        rw [husec] at hok
        refine ⟨us, rfl, ?_⟩
        have h2 : joinNL (headerParts nm now ++ mountSection ispec ++ us ++
            verifySection ispec ++ finalParts) = s := by
          injection hok
        rw [← h2]
        congr 1
  obtain ⟨us, husec, hs⟩ := hus
  obtain ⟨⟨r, hr⟩, hseq⟩ :=
    script_shape nm now (mountSection ispec ++ us ++ verifySection ispec)
  have hsr : s = "#!/bin/bash\n" ++ r := by rw [hs, hr]
  have hne : s ≠ "" := by
    rw [hsr]
    exact str_ne_empty_of_append _ _ (by decide)
  refine ⟨⟨r, hsr⟩, by rw [hs]; exact hseq, hne, ?_⟩
  intro p hp
  unfold build_run_params at hp
  cases hami : ispec.ami_id with
  | none => rw [hami] at hp; exact absurd hp (by simp)
  | some ami =>
  cases hit : ispec.instance_type with
  | none => rw [hami, hit] at hp; exact absurd hp (by simp)
  | some ity =>
      rw [hami, hit, hnm, hok] at hp
      simp only [] at hp
      have hp2 := hp
      injection hp2 with hp3
      rw [← hp3]
      simp only [if_neg hne]

/-- The concrete script prepared for the `web` declaration. -/
def sW : String := (prepare_user_data files0 "T" vInstW).toOption.getD ""

/-- Witness for C10 on the `web` declaration (no volumes, no user data). -/
theorem user_data_script_nonempty_witness :
    (∃ r, sW = "#!/bin/bash\n" ++ r) ∧
    SeqIn ["User Data Script Execution Started",
      "User Data Script Execution Completed Successfully"] sW ∧
    sW ≠ "" := by
  have h := user_data_script_nonempty files0 "T" vInstW "web" sW rfl rfl
  exact ⟨h.1, h.2.1, h.2.2.1⟩

/-! ## Claim C8: bootstrap section order -/

/-- C8: for an instance declaring at least one volume with a mount point
and a bootstrap script (inline, or a file the oracle resolves), the
assembled script contains, in order: the start banner, the volume-mount
stanza, the user-supplied script content, the mount-verification stanza,
and the completion banner — and it begins with the shebang line. -/
theorem bootstrap_section_order (files : String → Option String) (now : String)
    (ispec : InstanceSpec) (nm u : String) (cfg : UserDataCfg)
    (hnm : ispec.name = some nm)
    (hud : ispec.user_data = some cfg)
    (hu : match cfg.script_path with
          | some p => files p = some u
          | none => cfg.inline_script = some u)
    (hvm : volumesWithMounts ispec ≠ []) :
    ∃ s, prepare_user_data files now ispec = .ok s ∧
      SeqIn ["User Data Script Execution Started",
        "# === AUTOMATIC VOLUME MOUNTING ===", u,
        "# === MOUNT VERIFICATION ===",
        "User Data Script Execution Completed Successfully"] s ∧
      (∃ r, s = "#!/bin/bash\n" ++ r) := by
  -- the declared volumes and the non-empty mounted sublist
  obtain ⟨vols, hvols, hflt⟩ : ∃ vols, ispec.volumes = some vols ∧
      vols.filter (fun v => v.mount_point.isSome) ≠ [] := by
    unfold volumesWithMounts at hvm
    cases hv : ispec.volumes with
    | none => rw [hv] at hvm; simp at hvm
    | some vols => rw [hv] at hvm; exact ⟨vols, rfl, by simpa using hvm⟩
  -- the mount script and its section
  have hgen : generate_volume_mount_script ispec =
      joinNL (mountHeaderLines ++
        (vols.filter (fun v => v.mount_point.isSome)).flatMap volMountLines ++
        mountFooterLines) := by
    unfold generate_volume_mount_script
    rw [hvols]
    simp only [if_neg hflt]
  have hgenne : generate_volume_mount_script ispec ≠ "" := by
    rw [hgen]
    rw [show mountHeaderLines ++
        (vols.filter (fun v => v.mount_point.isSome)).flatMap volMountLines ++
        mountFooterLines = "# === AUTOMATIC VOLUME MOUNTING ===" ::
        (mountHeaderLines.tail ++
          (vols.filter (fun v => v.mount_point.isSome)).flatMap volMountLines ++
          mountFooterLines) from by simp [mountHeaderLines]]
    rw [joinNL_cons_ne _ _ (by simp [mountFooterLines])]
    exact str_ne_empty_of_append _ _ (by decide)
  have hmsec : mountSection ispec = [generate_volume_mount_script ispec,
      "echo \"Volume mounting completed successfully\"", ""] := by
    unfold mountSection
    simp only [if_neg hgenne]
  -- the user section
  have husec : userSection files ispec.user_data = .ok (userSectionHeader ++ [u]) := by
    rw [hud]
    unfold userSection
    cases hsp : cfg.script_path with
    | some p =>
        rw [hsp] at hu
        simp only [hsp, hu]
    | none =>
        rw [hsp] at hu
        simp only [hsp, hu]
  -- the verification section
  have hvsec : verifySection ispec =
      ["", "# === MOUNT VERIFICATION ===", "echo \"Verifying mounts...\"", "df -h"] ++
        (volumesWithMounts ispec).flatMap verifyLines ++
        ["echo \"All mount points verified successfully\"", ""] := by
    unfold verifySection
    simp only [if_neg hvm]
  -- assemble the script
  refine ⟨joinNL (headerParts nm now ++
    ((mountSection ispec ++ (userSectionHeader ++ [u]) ++ verifySection ispec) ++
      finalParts)), ?_, ?_, ?_⟩
  · unfold prepare_user_data
    rw [hnm, husec]
    congr 1
  · -- the marker chain
    rw [joinNL_append_ne _ _ (by simp [headerParts])
      (by simp [hmsec])]
    apply seqIn_header
    apply seqIn_skip
    apply seqIn_skip
    iterate 3 rw [joinNL_cons_ne _ _ (by simp)]
    rw [show joinNL [""] = "" from rfl]
    simp only [String.append_assoc]
    iterate 10 apply seqIn_skip
    -- now inside the middle sections
    rw [hmsec, hgen, hvsec]
    rw [show ([joinNL (mountHeaderLines ++
        (vols.filter (fun v => v.mount_point.isSome)).flatMap volMountLines ++
        mountFooterLines), "echo \"Volume mounting completed successfully\"", ""] ++
        (userSectionHeader ++ [u]) ++
        (["", "# === MOUNT VERIFICATION ===", "echo \"Verifying mounts...\"", "df -h"] ++
          (volumesWithMounts ispec).flatMap verifyLines ++
          ["echo \"All mount points verified successfully\"", ""])) ++ finalParts =
      joinNL (mountHeaderLines ++
        (vols.filter (fun v => v.mount_point.isSome)).flatMap volMountLines ++
        mountFooterLines) ::
      ("echo \"Volume mounting completed successfully\"" :: "" ::
        (userSectionHeader ++ [u] ++
          (["", "# === MOUNT VERIFICATION ===", "echo \"Verifying mounts...\"", "df -h"] ++
            (volumesWithMounts ispec).flatMap verifyLines ++
            ["echo \"All mount points verified successfully\"", ""]) ++ finalParts)) from by
      simp [List.append_assoc]]
    rw [joinNL_cons_ne _ _ (by simp [userSectionHeader])]
    -- expose the mount marker at the head of the mount script
    rw [show mountHeaderLines ++
        (vols.filter (fun v => v.mount_point.isSome)).flatMap volMountLines ++
        mountFooterLines = "# === AUTOMATIC VOLUME MOUNTING ===" ::
        (mountHeaderLines.tail ++
          (vols.filter (fun v => v.mount_point.isSome)).flatMap volMountLines ++
          mountFooterLines) from by simp [mountHeaderLines]]
    rw [joinNL_cons_ne _ _ (by simp [mountFooterLines])]
    simp only [String.append_assoc]
    apply seqIn_chunk_self
    apply seqIn_skip
    apply seqIn_skip
    apply seqIn_skip
    -- walk past the mount-complete echo into the user section
    iterate 2 rw [joinNL_cons_ne _ _ (by simp [userSectionHeader])]
    try simp only [String.append_assoc]
    iterate 4 apply seqIn_skip
    rw [show userSectionHeader ++ [u] ++
        (["", "# === MOUNT VERIFICATION ===", "echo \"Verifying mounts...\"", "df -h"] ++
          (volumesWithMounts ispec).flatMap verifyLines ++
          ["echo \"All mount points verified successfully\"", ""]) ++ finalParts =
      "# === USER CUSTOM SCRIPT ===" :: "echo \"Starting user custom script...\"" :: "" ::
        u :: "" :: "# === MOUNT VERIFICATION ===" :: "echo \"Verifying mounts...\"" ::
        "df -h" :: ((volumesWithMounts ispec).flatMap verifyLines ++
          ["echo \"All mount points verified successfully\"", ""] ++ finalParts) from by
      simp [userSectionHeader, List.append_assoc]]
    iterate 3 rw [joinNL_cons_ne _ _ (by simp)]
    try simp only [String.append_assoc]
    iterate 6 apply seqIn_skip
    -- u itself
    rw [joinNL_cons_ne _ _ (by simp)]
    apply seqIn_chunk_self
    apply seqIn_skip
    -- the verification marker
    iterate 2 rw [joinNL_cons_ne _ _ (by simp)]
    iterate 2 apply seqIn_skip
    apply seqIn_chunk_self
    apply seqIn_skip
    -- the completion banner
    show SeqIn ["User Data Script Execution Completed Successfully"]
      (joinNL (("echo \"Verifying mounts...\"" :: "df -h" ::
        ((volumesWithMounts ispec).flatMap verifyLines ++
          ["echo \"All mount points verified successfully\"", ""])) ++ finalParts))
    exact seqIn_final _
  · obtain ⟨⟨r, hr⟩, _⟩ := script_shape nm now
      (mountSection ispec ++ (userSectionHeader ++ [u]) ++ verifySection ispec)
    exact ⟨r, hr⟩

/-- The `web` declaration carrying one `/data` volume and an inline
bootstrap script. -/
def mountInstW : InstanceSpec :=
  { vInstW with
      user_data := some ⟨none, some "echo custom-bootstrap"⟩,
      volumes := some [{ VolumeSpec.default with
        size := some 10, mount_point := some "/data" }] }

/-- Witness for C8: on `mountInstW` the prepared script exists, starts with
the shebang, and carries the five markers in order. -/
theorem bootstrap_section_order_witness :
    ∃ s, prepare_user_data files0 "T" mountInstW = .ok s ∧
      SeqIn ["User Data Script Execution Started",
        "# === AUTOMATIC VOLUME MOUNTING ===", "echo custom-bootstrap",
        "# === MOUNT VERIFICATION ===",
        "User Data Script Execution Completed Successfully"] s ∧
      (∃ r, s = "#!/bin/bash\n" ++ r) :=
  bootstrap_section_order files0 "T" mountInstW "web" "echo custom-bootstrap"
    ⟨none, some "echo custom-bootstrap"⟩ rfl rfl rfl (by decide)
